import Mathlib

/-!
Shallow embedding of the GTM transaction-table core (src/gtm/main/gtm_txn.c):
the transaction array, the open-transaction list, the lookup indexes, the GXID
generator with its control checkpoint, the lifecycle operations
(begin / prepare / start-prepared / commit / rollback), the session reaper and
the standby mirror ("Bkup") begin path.

GXIDs are 32-bit unsigned integers; they are embedded as `Nat` with explicit
`% 2 ^ 32` where the C code relies on wrap-around.  Slots are records, the
dense array `gt_transactions_array` is a `List` of slots indexed by handles,
and the pointer list `gt_open_transactions` is a list of handles.  Fallible
operations return `Option` or carry an `ok` flag; paths that are undefined
behaviour in the C code (a NULL dereference, a read past the end of the
array) are represented by distinguished results and noted at the definition.
-/

namespace GTMCore

/-- Request status values returned to clients.  Modelled from the spec:
the numeric STATUS_* constants live in a header that is not part of the
provided source; the spec fixes the three values OK / ERROR / DELAYED. -/
inductive Status where
  | ok
  | error
  | delayed
  deriving DecidableEq, Repr

/-- Per-transaction lifecycle states.  Modelled from the spec: the
GTM_TXN_* enum lives in a header that is not part of the provided source;
the spec lists exactly these seven states. -/
inductive TxnState where
  | starting
  | running
  | prepareInProgress
  | prepared
  | commitInProgress
  | abortInProgress
  | aborted
  deriving DecidableEq, Repr, Inhabited

/-- Whole-table run state (GTM_STARTING / GTM_RUNNING / GTM_SHUTTING_DOWN). -/
inductive RunState where
  | starting
  | running
  | shuttingDown
  deriving DecidableEq, Repr

/-- GXIDs are 32-bit. -/
def gxidMod : Nat := 2 ^ 32

/-- Half of the GXID range; the boundary of the signed-difference comparison. -/
def halfMod : Nat := 2 ^ 31

/-- Modelled from the spec: InvalidGlobalTransactionId is 0 (missing header). -/
def InvalidGlobalTransactionId : Nat := 0

/-- Modelled from the spec: FirstNormalGxid is a small constant, e.g. 3;
values below it are reserved and never assigned (missing header). -/
def FirstNormalGlobalTransactionId : Nat := 3

/-- Modelled from the spec: a GXID is valid when it is not 0 (missing header). -/
def GlobalTransactionIdIsValid (x : Nat) : Bool :=
  x != InvalidGlobalTransactionId

/-- Modelled from the spec: a GXID is normal when it is at least the reserved
floor FirstNormalGxid (missing header). -/
def GlobalTransactionIdIsNormal (x : Nat) : Bool :=
  decide (FirstNormalGlobalTransactionId ≤ x)

/-- The 32-bit difference a - b, i.e. unsigned wrap-around subtraction. -/
def gxidDiff (a b : Nat) : Nat := (a + gxidMod - b) % gxidMod

/-- Modelled from the spec: the modular follows-or-equals comparison, the
32-bit signed-difference convention `(int32)(a - b) >= 0` (missing header). -/
def GlobalTransactionIdFollowsOrEquals (a b : Nat) : Bool :=
  decide (gxidDiff a b < halfMod)

/-- Modelled from the spec: the modular precedes-or-equals comparison, the
32-bit signed-difference convention `(int32)(a - b) <= 0` (missing header). -/
def GlobalTransactionIdPrecedesOrEquals (a b : Nat) : Bool :=
  decide (gxidDiff a b = 0 ∨ halfMod ≤ gxidDiff a b)

/-- Modelled from the spec: advancing a GXID by one, skipping the reserved
low range on wrap (missing header). -/
def GlobalTransactionIdAdvance (x : Nat) : Nat :=
  let y := (x + 1) % gxidMod
  if y < FirstNormalGlobalTransactionId then FirstNormalGlobalTransactionId else y

/-- One entry of gt_transactions_array (struct GTM_TransactionInfo).
Sequence handles are opaque `Nat`s; the per-slot lock is a concurrency
artefact and is not represented. -/
structure TransactionInfo where
  gti_handle : Nat
  gti_gxid : Nat
  gti_xmin : Nat
  gti_state : TxnState
  gti_in_use : Bool
  gti_client_id : Nat
  gti_proxy_client_id : Int
  gti_global_session_id : String
  gti_gid : Option String
  nodestring : Option String
  gti_isolevel : Nat
  gti_readonly : Bool
  gti_vacuum : Bool
  gti_snapshot_set : Bool
  gti_created_seqs : List Nat
  gti_dropped_seqs : List Nat
  gti_altered_seqs : List Nat
  deriving DecidableEq, Repr

/-- The all-zeroes slot produced by the memset in GTM_InitTxnManager. -/
def zeroSlot : TransactionInfo :=
  { gti_handle := 0
    gti_gxid := InvalidGlobalTransactionId
    gti_xmin := InvalidGlobalTransactionId
    gti_state := TxnState.starting
    gti_in_use := false
    gti_client_id := 0
    gti_proxy_client_id := 0
    gti_global_session_id := ""
    gti_gid := none
    nodestring := none
    gti_isolevel := 0
    gti_readonly := false
    gti_vacuum := false
    gti_snapshot_set := false
    gti_created_seqs := []
    gti_dropped_seqs := []
    gti_altered_seqs := [] }

instance : Inhabited TransactionInfo := ⟨zeroSlot⟩

/-- The process-wide transaction table (struct GTM_Transactions), together
with the global ControlXid (the last GXID written to the control file).
The two reader-writer locks are concurrency artefacts and not represented. -/
structure Transactions where
  gt_transactions_array : List TransactionInfo
  gt_open_transactions : List Nat
  gt_lastslot : Int
  gt_nextXid : Nat
  gt_oldestXid : Nat
  gt_xidVacLimit : Nat
  gt_xidWarnLimit : Nat
  gt_xidStopLimit : Nat
  gt_xidWrapLimit : Nat
  gt_latestCompletedXid : Nat
  gt_gtm_state : RunState
  controlXid : Nat
  deriving DecidableEq, Repr

/-- Number of slots: GTM_MAX_GLOBAL_TRANSACTIONS, the length of the array. -/
def slotCount (s : Transactions) : Nat := s.gt_transactions_array.length

/-- Read the slot at a handle (the C array access, defined only in bounds;
out of bounds the default slot is returned, which is never in use). -/
def slotGet (s : Transactions) (h : Nat) : TransactionInfo :=
  s.gt_transactions_array.getD h default

/-- Write the slot at a handle. -/
def setSlot (s : Transactions) (h : Nat) (v : TransactionInfo) : Transactions :=
  { s with gt_transactions_array := s.gt_transactions_array.set h v }

/-- GTM_InitTxnManager: the empty table with n slots. -/
def GTM_InitTxnManager (n : Nat) : Transactions :=
  { gt_transactions_array := List.replicate n zeroSlot
    gt_open_transactions := []
    gt_lastslot := -1
    gt_nextXid := FirstNormalGlobalTransactionId
    gt_oldestXid := FirstNormalGlobalTransactionId
    gt_xidVacLimit := InvalidGlobalTransactionId
    gt_xidWarnLimit := InvalidGlobalTransactionId
    gt_xidStopLimit := InvalidGlobalTransactionId
    gt_xidWrapLimit := InvalidGlobalTransactionId
    gt_latestCompletedXid := FirstNormalGlobalTransactionId
    gt_gtm_state := RunState.starting
    controlXid := FirstNormalGlobalTransactionId }

/-- GTM_GXIDToHandle_Internal: walk gt_open_transactions for a matching GXID;
an invalid GXID is rejected up front. -/
def GTM_GXIDToHandle_Internal (s : Transactions) (gxid : Nat) : Option Nat :=
  if GlobalTransactionIdIsValid gxid then
    s.gt_open_transactions.find? (fun h => (slotGet s h).gti_gxid == gxid)
  else none

/-- GTM_IsGXIDInProgress: the GXID is still in gt_open_transactions. -/
def GTM_IsGXIDInProgress (s : Transactions) (gxid : Nat) : Bool :=
  (GTM_GXIDToHandle_Internal s gxid).isSome

/-- GTM_GlobalSessionIDToHandle: walk gt_open_transactions comparing session
ids; NULL or empty session ids never match. -/
def GTM_GlobalSessionIDToHandle (s : Transactions) (sid : String) : Option Nat :=
  if sid = "" then none
  else s.gt_open_transactions.find? (fun h => (slotGet s h).gti_global_session_id == sid)

/-- GTM_GIDToHandle: walk gt_open_transactions comparing the (optional) GID. -/
def GTM_GIDToHandle (s : Transactions) (gid : String) : Option Nat :=
  s.gt_open_transactions.find? (fun h => (slotGet s h).gti_gid == some gid)

/-- Result of GTM_HandleToTransactionInfo.  `invalid` is the NULL return with
a warning; `outOfRangeRead` marks the path where the C code passes its range
check but indexes one past the array (undefined behaviour). -/
inductive HandleLookup where
  | found (info : TransactionInfo)
  | invalid
  | outOfRangeRead
  deriving DecidableEq, Repr

/-- GTM_HandleToTransactionInfo, with the C bounds test verbatim:
`(handle < 0) || (handle > GTM_MAX_GLOBAL_TRANSACTIONS)`.  Note the strict
`>`: handle = GTM_MAX_GLOBAL_TRANSACTIONS passes the test and the array is
read out of range. -/
def GTM_HandleToTransactionInfo (arr : List TransactionInfo) (handle : Int) : HandleLookup :=
  if handle < 0 ∨ (arr.length : Int) < handle then HandleLookup.invalid
  else
    match arr.get? handle.toNat with
    | none => HandleLookup.outOfRangeRead
    | some info =>
      if info.gti_in_use then HandleLookup.found info else HandleLookup.invalid

/-- Handle lookup as used by the in-bounds operations: the slot at the
handle when it exists and is in use. -/
def lookupInfo (s : Transactions) (h : Nat) : Option TransactionInfo :=
  (s.gt_transactions_array.get? h).bind
    (fun info => if info.gti_in_use then some info else none)

/-- GTM_TransactionInfo_Init: (re)initialise a slot for a fresh transaction.
Fields not assigned by the C function (the sequence lists, the snapshot flag)
keep their previous values. -/
def GTM_TransactionInfo_Init (old : TransactionInfo) (txn : Nat) (isolevel : Nat)
    (client_id : Nat) (connid : Int) (sid : String) (readonly : Bool) : TransactionInfo :=
  { old with
    gti_gxid := InvalidGlobalTransactionId
    gti_xmin := InvalidGlobalTransactionId
    gti_state := TxnState.starting
    gti_isolevel := isolevel
    gti_readonly := readonly
    gti_in_use := true
    gti_global_session_id := sid
    nodestring := none
    gti_gid := none
    gti_handle := txn
    gti_vacuum := false
    gti_client_id := client_id
    gti_proxy_client_id := connid }

/-- GTM_TransactionInfo_Clean: mark the slot empty and release its strings.
The calls into the sequence subsystem are external side effects and are not
represented; the slot-local effect is exactly this record update (note that
gti_gxid is left in place). -/
def GTM_TransactionInfo_Clean (info : TransactionInfo) : TransactionInfo :=
  { info with
    gti_created_seqs := []
    gti_dropped_seqs := []
    gti_altered_seqs := []
    gti_state := TxnState.aborted
    gti_in_use := false
    gti_snapshot_set := false
    gti_gid := none
    nodestring := none }

/-- The gt_latestCompletedXid update applied to each removed slot:
take the removed GXID when it is normal and modularly follows. -/
def latestUpd (latest g : Nat) : Nat :=
  if GlobalTransactionIdIsNormal g && GlobalTransactionIdFollowsOrEquals g latest
  then g else latest

/-- Removal of a single slot, the loop body shared by GTM_RemoveTransInfoMulti
and GTM_RemoveAllTransInfos: delete the handle from gt_open_transactions
(gtm_list_delete removes the first matching cell), update
gt_latestCompletedXid, and clean the slot. -/
def removeOne (s : Transactions) (h : Nat) : Transactions :=
  let info := slotGet s h
  { s with
    gt_open_transactions := s.gt_open_transactions.erase h
    gt_latestCompletedXid := latestUpd s.gt_latestCompletedXid info.gti_gxid
    gt_transactions_array := s.gt_transactions_array.set h (GTM_TransactionInfo_Clean info) }

/-- GTM_RemoveTransInfoMulti: remove a batch of slots; NULL entries (here
`none`) are skipped. -/
def GTM_RemoveTransInfoMulti (s : Transactions) (batch : List (Option Nat)) : Transactions :=
  batch.foldl (fun acc oh => match oh with | none => acc | some h => removeOne acc h) s

/-- The removal condition of GTM_RemoveAllTransInfos: in use, not prepared and
not preparing, owned by the client, and (for backend_id other than -1) owned
by the proxy backend. -/
def reapMatch (info : TransactionInfo) (client_id : Nat) (backend_id : Int) : Bool :=
  info.gti_in_use &&
  !(info.gti_state == TxnState.prepared) &&
  !(info.gti_state == TxnState.prepareInProgress) &&
  (info.gti_client_id == client_id) &&
  ((info.gti_proxy_client_id == backend_id) || (backend_id == -1))

/-- The traversal of GTM_RemoveAllTransInfos over the open list: each cell is
visited once; matching cells are removed in place. -/
def reapGo (client_id : Nat) (backend_id : Int) : Transactions → List Nat → Transactions
  | s, [] => s
  | s, h :: rest =>
    if reapMatch (slotGet s h) client_id backend_id
    then reapGo client_id backend_id (removeOne s h) rest
    else reapGo client_id backend_id s rest

/-- GTM_RemoveAllTransInfos: purge the client's transactions. -/
def GTM_RemoveAllTransInfos (s : Transactions) (client_id : Nat) (backend_id : Int) : Transactions :=
  reapGo client_id backend_id s s.gt_open_transactions

/-- Result of the free-slot scan of GTM_BeginTransactionMulti.  `fellThrough`
marks the path where the loop finishes all its iterations without a free slot
and without reaching the `ii == gt_lastslot` guard: the C code then continues
with a NULL info pointer (undefined behaviour). -/
inductive AllocScan where
  | claimed (idx : Nat)
  | capacityError
  | fellThrough (idx : Nat)
  deriving DecidableEq, Repr

/-- The body of the scan: ii is the current index, the second argument the
number of remaining iterations (the loop runs GTM_MAX_GLOBAL_TRANSACTIONS
times).  A free slot is claimed; otherwise reaching ii == gt_lastslot raises
the capacity error. -/
def allocScanFrom (arr : List TransactionInfo) (lastslot : Int) : Nat → Nat → AllocScan
  | ii, 0 => AllocScan.fellThrough ii
  | ii, fuel + 1 =>
    if (arr.getD ii default).gti_in_use = false then AllocScan.claimed ii
    else if (ii : Int) = lastslot then AllocScan.capacityError
    else allocScanFrom arr lastslot ((ii + 1) % arr.length) fuel

/-- The free-slot scan of GTM_BeginTransactionMulti: start at
(gt_lastslot + 1) wrapped to 0, walk at most the array length. -/
def allocScan (arr : List TransactionInfo) (lastslot : Int) : AllocScan :=
  let startslot : Int := if (arr.length : Int) ≤ lastslot + 1 then 0 else lastslot + 1
  allocScanFrom arr lastslot startslot.toNat arr.length

/-- Arguments of one begin request (isolation level, read-only flag, global
session id, proxy connection id, and the caller's client id). -/
structure BeginArg where
  isolevel : Nat
  readonly : Bool
  sessionid : String
  connid : Int
  client_id : Nat
  deriving DecidableEq, Repr

/-- One iteration of GTM_BeginTransactionMulti: reuse the open transaction of
the session when there is one, otherwise claim a free slot, initialise it,
record it as gt_lastslot and append it to gt_open_transactions.  `none` is the
path where no slot is claimed (the capacity error, or the undefined
fall-through). -/
def GTM_BeginTransactionOne (s : Transactions) (a : BeginArg) : Option (Transactions × Nat) :=
  match GTM_GlobalSessionIDToHandle s a.sessionid with
  | some txn => some (s, txn)
  | none =>
    match allocScan s.gt_transactions_array s.gt_lastslot with
    | AllocScan.claimed ii =>
      some ({ s with
        gt_transactions_array := s.gt_transactions_array.set ii
          (GTM_TransactionInfo_Init (slotGet s ii) ii a.isolevel a.client_id
            a.connid a.sessionid a.readonly)
        gt_lastslot := (ii : Int)
        gt_open_transactions := s.gt_open_transactions ++ [ii] }, ii)
    | _ => none

/-- GTM_BeginTransactionMulti over a list of requests.  On a failed
allocation the C code raises an error out of the whole request; the state
reached so far is kept and the handle list is `none`. -/
def beginMultiGo : Transactions → List BeginArg → Transactions × Option (List Nat)
  | s, [] => (s, some [])
  | s, a :: rest =>
    match GTM_BeginTransactionOne s a with
    | none => (s, none)
    | some (s1, h) =>
      match beginMultiGo s1 rest with
      | (s2, none) => (s2, none)
      | (s2, some hs) => (s2, some (h :: hs))

/-- GTM_BeginTransactionMulti. -/
def GTM_BeginTransactionMulti (s : Transactions) (args : List BeginArg) :
    Transactions × Option (List Nat) :=
  beginMultiGo s args

/-- Set the lifecycle state of the slot at a handle (the transition done
under the slot's write lock). -/
def setTxnState (s : Transactions) (h : Nat) (st : TxnState) : Transactions :=
  setSlot s h { slotGet s h with gti_state := st }

/-- The wrap-limit refusal condition checked by the generator before an
assignment (past the vacuum limit, with the limit valid, and past the stop
limit). -/
def genStopCond (s : Transactions) : Bool :=
  GlobalTransactionIdFollowsOrEquals s.gt_nextXid s.gt_xidVacLimit &&
  GlobalTransactionIdIsValid s.gt_xidVacLimit &&
  GlobalTransactionIdFollowsOrEquals s.gt_nextXid s.gt_xidStopLimit

/-- The per-handle dependency test of GTM_CommitTransactionMulti: some
waited GXID is still in progress. -/
def delayedCond (s : Transactions) (waited : List Nat) : Bool :=
  waited.any (fun w => GTM_IsGXIDInProgress s w)

/-- The status reported for one handle by the commit loop when no waited
GXID is in progress. -/
def commitStatusOf (o : Option TransactionInfo) : Status :=
  match o with
  | none => Status.error
  | some _ => Status.ok

/-- The status reported for one handle by the commit loop when some waited
GXID is still in progress. -/
def commitStatusDelayed (o : Option TransactionInfo) : Status :=
  match o with
  | none => Status.error
  | some _ => Status.delayed

/-- The first loop of GTM_CommitTransactionMulti: per handle, report ERROR on
an unusable handle, DELAYED when some waited GXID is still in progress, and
otherwise mark the slot COMMIT_IN_PROGRESS, report OK and add the slot to the
removal batch (in loop order). -/
def commitPhase1 (waited : List Nat) : Transactions → List Nat →
    Transactions × List Status × List Nat
  | s, [] => (s, [], [])
  | s, h :: rest =>
    match lookupInfo s h with
    | none =>
      let r := commitPhase1 waited s rest
      (r.1, Status.error :: r.2.1, r.2.2)
    | some _ =>
      if delayedCond s waited then
        let r := commitPhase1 waited s rest
        (r.1, Status.delayed :: r.2.1, r.2.2)
      else
        let r := commitPhase1 waited (setTxnState s h TxnState.commitInProgress) rest
        (r.1, Status.ok :: r.2.1, h :: r.2.2)

/-- GTM_CommitTransactionMulti: the marking loop followed by the removal pass
over the batched slots. -/
def GTM_CommitTransactionMulti (s : Transactions) (txn : List Nat) (waited : List Nat) :
    Transactions × List Status :=
  let p := commitPhase1 waited s txn
  (GTM_RemoveTransInfoMulti p.1 (p.2.2.map Option.some), p.2.1)

/-- GTM_CommitTransaction: the single-handle form delegates to the batch. -/
def GTM_CommitTransaction (s : Transactions) (txn : Nat) (waited : List Nat) :
    Transactions × Status :=
  let r := GTM_CommitTransactionMulti s [txn] waited
  (r.1, r.2.headD Status.error)

/-- The loop of GTM_RollbackTransactionMulti: mark every usable handle
ABORT_IN_PROGRESS with status OK, ERROR on unusable handles. -/
def rollbackPhase1 : Transactions → List Nat → Transactions × List Status × List Nat
  | s, [] => (s, [], [])
  | s, h :: rest =>
    match lookupInfo s h with
    | none =>
      let r := rollbackPhase1 s rest
      (r.1, Status.error :: r.2.1, r.2.2)
    | some _ =>
      let r := rollbackPhase1 (setTxnState s h TxnState.abortInProgress) rest
      (r.1, Status.ok :: r.2.1, h :: r.2.2)

/-- GTM_RollbackTransactionMulti: marking loop, then the removal pass. -/
def GTM_RollbackTransactionMulti (s : Transactions) (txn : List Nat) :
    Transactions × List Status :=
  let p := rollbackPhase1 s txn
  (GTM_RemoveTransInfoMulti p.1 (p.2.2.map Option.some), p.2.1)

/-- GTM_PrepareTransaction: no check of the current state; the slot (whatever
its state) is switched to PREPARED and OK is returned.  The expected initial
state PREPARE_IN_PROGRESS is only asserted in debug builds, after the
transition. -/
def GTM_PrepareTransaction (s : Transactions) (txn : Nat) : Transactions × Status :=
  match lookupInfo s txn with
  | none => (s, Status.error)
  | some _ => (setTxnState s txn TxnState.prepared, Status.ok)

/-- GTM_StartPreparedTransaction: reject an unusable handle, reject a GID
already carried by an open transaction, else switch the slot to
PREPARE_IN_PROGRESS and copy gid and nodestring into table-owned storage. -/
def GTM_StartPreparedTransaction (s : Transactions) (txn : Nat) (gid : String)
    (ns : String) : Transactions × Status :=
  match lookupInfo s txn with
  | none => (s, Status.error)
  | some info =>
    match GTM_GIDToHandle s gid with
    | some _ => (s, Status.error)
    | none =>
      (setSlot s txn { info with
        gti_state := TxnState.prepareInProgress
        nodestring := some ns
        gti_gid := some gid }, Status.ok)

/-- Output of the assignment loop of GTM_GetGlobalTransactionIdMulti:
the table, whether the loop finished (false marks the wrap-around-stop
refusal or an unusable handle, both of which abort the request keeping the
state reached so far), the per-handle gxids, the handles that got a new
GXID, and the final value of the local variable xid (the last GXID read
from gt_nextXid, or Invalid when none was). -/
structure GenLoopOut where
  st : Transactions
  ok : Bool
  gxids : List Nat
  newHandles : List Nat
  xid : Nat
  deriving DecidableEq, Repr

/-- The per-handle loop of GTM_GetGlobalTransactionIdMulti: handles with a
GXID keep it; others are checked against the wrap limits, receive
gt_nextXid, and gt_nextXid is advanced. -/
def genLoop : Transactions → List Nat → Nat → GenLoopOut
  | s, [], xid => ⟨s, true, [], [], xid⟩
  | s, h :: rest, xid =>
    match lookupInfo s h with
    | none => ⟨s, false, [], [], xid⟩
    | some info =>
      if GlobalTransactionIdIsValid info.gti_gxid then
        let r := genLoop s rest xid
        ⟨r.st, r.ok, info.gti_gxid :: r.gxids, r.newHandles, r.xid⟩
      else
        let x := s.gt_nextXid
        if GlobalTransactionIdFollowsOrEquals x s.gt_xidVacLimit &&
           GlobalTransactionIdIsValid s.gt_xidVacLimit &&
           GlobalTransactionIdFollowsOrEquals x s.gt_xidStopLimit then
          ⟨s, false, [], [], xid⟩
        else
          let s1 := { setSlot s h { info with gti_gxid := x } with
                      gt_nextXid := GlobalTransactionIdAdvance s.gt_nextXid }
          let r := genLoop s1 rest x
          ⟨r.st, r.ok, x :: r.gxids, info.gti_handle :: r.newHandles, r.xid⟩

/-- Result of GTM_GetGlobalTransactionIdMulti: the table, success flag,
outputs, the final xid, and whether the control file was written
(save_control / SaveControlInfo). -/
structure GenResult where
  st : Transactions
  ok : Bool
  gxids : List Nat
  newHandles : List Nat
  xid : Nat
  saveControl : Bool
  deriving DecidableEq, Repr

/-- The control-checkpoint decision at the end of the GXID-producing paths:
`xid - ControlXid > CONTROL_INTERVAL || xid < ControlXid`, guarded by xid
being valid; the subtraction and both comparisons are the plain unsigned
32-bit ones.  ci is the CONTROL_INTERVAL tunable. -/
def saveControlCond (ci : Nat) (xid controlXid : Nat) : Bool :=
  GlobalTransactionIdIsValid xid &&
  (decide (ci < gxidDiff xid controlXid) || decide (xid < controlXid))

/-- GTM_GetGlobalTransactionIdMulti: refuse on standby or during shutdown,
run the assignment loop, then make the checkpoint decision and (outside the
generator lock) write the control file. -/
def GTM_GetGlobalTransactionIdMulti (ci : Nat) (isStandby : Bool)
    (s : Transactions) (handles : List Nat) : GenResult :=
  if isStandby then ⟨s, false, [], [], InvalidGlobalTransactionId, false⟩
  else if s.gt_gtm_state == RunState.shuttingDown then
    ⟨s, false, [], [], InvalidGlobalTransactionId, false⟩
  else
    let r := genLoop s handles InvalidGlobalTransactionId
    if r.ok then
      if saveControlCond ci r.xid r.st.controlXid then
        ⟨{ r.st with controlXid := r.xid }, true, r.gxids, r.newHandles, r.xid, true⟩
      else ⟨r.st, true, r.gxids, r.newHandles, r.xid, false⟩
    else ⟨r.st, false, r.gxids, r.newHandles, r.xid, false⟩

/-- Result of the standby mirror begin: the table, the handles when the

begin succeeded, and whether the control file was written. -/
structure BkupOut where
  st : Transactions
  txns : Option (List Nat)
  saved : Bool
  deriving DecidableEq, Repr

/-- The gt_nextXid update the standby code actually performs: only an
invalid (zero) advanced value is reset to the reserved floor; the reserved
values 1 and 2 are kept as they are. -/
def bkupAdvanceCode (next g : Nat) : Nat :=
  let adv := if GlobalTransactionIdPrecedesOrEquals next g then (g + 1) % gxidMod else next
  if adv = InvalidGlobalTransactionId then FirstNormalGlobalTransactionId else adv

/-- The per-transaction loop of GTM_BkupBeginTransactionGetGXIDMulti: store
the received GXID and session id in the slot, then update gt_nextXid by the
two statements named bkupAdvanceCode (advance to gxid + 1 when it
precedes-or-equals the received gxid, reset an invalid result to the first
normal GXID); xid tracks gt_nextXid after each iteration. -/
def bkupLoop : Transactions → List Nat → List (Nat × BeginArg) → Nat → Transactions × Nat
  | s, h :: hs, (g, a) :: rest, _ =>
    let s1 := match lookupInfo s h with
      | none => s
      | some info => setSlot s h { info with gti_gxid := g, gti_global_session_id := a.sessionid }
    let n2 := bkupAdvanceCode s1.gt_nextXid g
    bkupLoop ({ s1 with gt_nextXid := n2 }) hs rest n2
  | s, _, _, xid => (s, xid)

/-- GTM_BkupBeginTransactionGetGXIDMulti: begin the transactions (reusing
open ones on the same session), then run the GXID/session loop and the
control-checkpoint decision. -/
def GTM_BkupBeginTransactionGetGXIDMulti (ci : Nat) (s : Transactions)
    (args : List (Nat × BeginArg)) : BkupOut :=
  match beginMultiGo s (args.map Prod.snd) with
  | (s1, none) => ⟨s1, none, false⟩
  | (s1, some hs) =>
    let r := bkupLoop s1 hs args InvalidGlobalTransactionId
    if saveControlCond ci r.2 r.1.controlXid then
      ⟨{ r.1 with controlXid := r.2 }, some hs, true⟩
    else ⟨r.1, some hs, false⟩

/-- GTM_BkupBeginTransactionGetGXID: the single-transaction mirror call. -/
def GTM_BkupBeginTransactionGetGXID (ci : Nat) (s : Transactions) (g : Nat)
    (a : BeginArg) : BkupOut :=
  GTM_BkupBeginTransactionGetGXIDMulti ci s [(g, a)]

/-- The state-changing operations of the transaction API, for stating
invariants over arbitrary operation sequences. -/
inductive Op where
  | beginMulti (args : List BeginArg)
  | bkupBeginGXIDMulti (ci : Nat) (args : List (Nat × BeginArg))
  | startPreparedTxn (h : Nat) (gid : String) (ns : String)
  | prepareTxn (h : Nat)
  | commitMulti (txn : List Nat) (waited : List Nat)
  | rollbackMulti (txn : List Nat)
  | reap (client_id : Nat) (backend_id : Int)
  | assignGXIDMulti (ci : Nat) (isStandby : Bool) (handles : List Nat)

/-- The table after one operation. -/
def step (s : Transactions) : Op → Transactions
  | Op.beginMulti args => (GTM_BeginTransactionMulti s args).1
  | Op.bkupBeginGXIDMulti ci args => (GTM_BkupBeginTransactionGetGXIDMulti ci s args).st
  | Op.startPreparedTxn h gid ns => (GTM_StartPreparedTransaction s h gid ns).1
  | Op.prepareTxn h => (GTM_PrepareTransaction s h).1
  | Op.commitMulti txn waited => (GTM_CommitTransactionMulti s txn waited).1
  | Op.rollbackMulti txn => (GTM_RollbackTransactionMulti s txn).1
  | Op.reap cid bid => GTM_RemoveAllTransInfos s cid bid
  | Op.assignGXIDMulti ci st hs => (GTM_GetGlobalTransactionIdMulti ci st s hs).st

/-- The table after a sequence of operations. -/
def run (s : Transactions) (ops : List Op) : Transactions := ops.foldl step s

/-- Structural well-formedness of the table: the open list has no duplicate
handles, lists only in-range handles, contains exactly the in-use slots, and
the cursor is in [-1, slotCount). -/
def WF (s : Transactions) : Prop :=
  s.gt_open_transactions.Nodup ∧
  (∀ h ∈ s.gt_open_transactions, h < slotCount s) ∧
  (∀ h, h < slotCount s → ((slotGet s h).gti_in_use = true ↔ h ∈ s.gt_open_transactions)) ∧
  (-1 ≤ s.gt_lastslot ∧ s.gt_lastslot < (slotCount s : Int))

instance (s : Transactions) : Decidable (WF s) := by
  unfold WF
  infer_instance

/-- GID uniqueness: no two distinct in-use slots carry the same GID. -/
def GidUnique (s : Transactions) : Prop :=
  ∀ i : Nat, i < slotCount s → ∀ j : Nat, j < slotCount s → i ≠ j →
    (slotGet s i).gti_in_use = true → (slotGet s j).gti_in_use = true →
    (slotGet s i).gti_gid ≠ none → (slotGet s i).gti_gid ≠ (slotGet s j).gti_gid

/-- Written from the spec sentence about the removal passes: the modular
maximum of an initial value and a list of GXIDs, using the 32-bit
follows-or-equals comparison.  Compared against the embedded removal code. -/
def specModularMax (init : Nat) (gs : List Nat) : Nat :=
  gs.foldl (fun acc g => if GlobalTransactionIdFollowsOrEquals g acc then g else acc) init

/-- Written from the spec sentence about the standby GXID feed: advance to
g + 1 whenever gt_nextXid precedes-or-equals g (else leave it unchanged),
and when the advanced value falls in the reserved range below
FirstNormalGxid, wrap it up to the floor.  Compared against the embedded
standby code. -/
def specBkupAdvance (next g : Nat) : Nat :=
  if GlobalTransactionIdPrecedesOrEquals next g then
    (if (g + 1) % gxidMod < FirstNormalGlobalTransactionId
     then FirstNormalGlobalTransactionId else (g + 1) % gxidMod)
  else next

/-- Written from the spec sentence about the reaper: a slot is removed when
its client id matches, its proxy client id matches (-1 matching any), and
its state is neither Prepared nor PrepareInProgress.  Compared against the
embedded reaper condition. -/
def specReapRemoves (info : TransactionInfo) (client_id : Nat) (backend_id : Int) : Bool :=
  (info.gti_client_id == client_id) &&
  ((info.gti_proxy_client_id == backend_id) || (backend_id == -1)) &&
  !(info.gti_state == TxnState.prepared) &&
  !(info.gti_state == TxnState.prepareInProgress)

/-- Written from the claim sentence about the control checkpoint: trigger
when xid − control_gxid ≥ CONTROL_INTERVAL (modular subtraction) or
xid < control_gxid.  Compared against the embedded trigger, which uses a
strict >. -/
def specSaveCond (ci xid controlXid : Nat) : Bool :=
  decide (ci ≤ gxidDiff xid controlXid) || decide (xid < controlXid)

/-- A sample in-use running slot. -/
def sampleSlot (i g : Nat) (sid : String) : TransactionInfo :=
  { zeroSlot with
    gti_handle := i
    gti_gxid := g
    gti_state := TxnState.running
    gti_in_use := true
    gti_client_id := 7
    gti_global_session_id := sid }

/-- A four-slot table with every slot occupied. -/
def sampleFull4 : Transactions :=
  { GTM_InitTxnManager 4 with
    gt_transactions_array :=
      [sampleSlot 0 100 "s0", sampleSlot 1 101 "s1", sampleSlot 2 102 "s2", sampleSlot 3 103 "s3"]
    gt_open_transactions := [0, 1, 2, 3]
    gt_lastslot := 2
    gt_nextXid := 104
    gt_gtm_state := RunState.running }

/-- A four-slot table with two open transactions (gxids 100 and 101). -/
def sampleTwo : Transactions :=
  { GTM_InitTxnManager 4 with
    gt_transactions_array := [sampleSlot 0 100 "s0", sampleSlot 1 101 "s1", zeroSlot, zeroSlot]
    gt_open_transactions := [0, 1]
    gt_lastslot := 1
    gt_nextXid := 102
    gt_gtm_state := RunState.running }

/-- A four-slot table owned by client 7 with a running transaction in slot 0
and a prepared transaction (with a GID) in slot 1. -/
def samplePrep : Transactions :=
  { GTM_InitTxnManager 4 with
    gt_transactions_array :=
      [sampleSlot 0 100 "s0",
       { sampleSlot 1 101 "s1" with
          gti_state := TxnState.prepared
          gti_gid := some "GID-1"
          nodestring := some "n1" },
       zeroSlot, zeroSlot]
    gt_open_transactions := [0, 1]
    gt_lastslot := 1
    gt_nextXid := 102
    gt_gtm_state := RunState.running }

/-- A table with one GXID-less open transaction, gt_nextXid = 8195 and
control_gxid = 3, so the next assignment is exactly CONTROL_INTERVAL = 8192
past the control checkpoint. -/
def sampleGen : Transactions :=
  { GTM_InitTxnManager 4 with
    gt_transactions_array :=
      [sampleSlot 0 InvalidGlobalTransactionId "s0", zeroSlot, zeroSlot, zeroSlot]
    gt_open_transactions := [0]
    gt_lastslot := 0
    gt_nextXid := 8195
    gt_gtm_state := RunState.running }

/-- Same as sampleGen with gt_nextXid = 8196 (one step further). -/
def sampleGenB : Transactions := { sampleGen with gt_nextXid := 8196 }

/-- An empty table whose gt_nextXid is in the upper half of the GXID range,
so that it modularly precedes the small reserved GXIDs. -/
def sampleHalf : Transactions :=
  { GTM_InitTxnManager 4 with gt_nextXid := 2 ^ 31 + 5, gt_gtm_state := RunState.running }

/-- A begin request on the (non-empty) global session "x". -/
def sampleArgX : BeginArg := ⟨2, false, "x", -1, 7⟩

/-- A begin request with an empty (absent) global session id. -/
def sampleArgEmpty : BeginArg := ⟨2, false, "", -1, 7⟩

/-- The empty table after one session-less mirror begin with GXID 100. -/
def c9once : Transactions :=
  (GTM_BkupBeginTransactionGetGXID 8192 (GTM_InitTxnManager 4) 100 sampleArgEmpty).st

/-- The table after the same session-less mirror begin replayed a second
time. -/
def c9twice : Transactions :=
  (GTM_BkupBeginTransactionGetGXID 8192 c9once 100 sampleArgEmpty).st

/-! ### Basic facts about slots, lookups and list updates -/

theorem slotCount_setSlot (s : Transactions) (h : Nat) (v : TransactionInfo) :
    slotCount (setSlot s h v) = slotCount s := by
  simp [slotCount, setSlot]

theorem slotGet_setSlot_self (s : Transactions) (h : Nat) (v : TransactionInfo)
    (hh : h < slotCount s) : slotGet (setSlot s h v) h = v := by
  simp [slotGet, setSlot, List.getD_eq_getElem?_getD, List.getElem?_set_self (h := hh)]

theorem slotGet_setSlot_ne (s : Transactions) (h k : Nat) (v : TransactionInfo)
    (hk : k ≠ h) : slotGet (setSlot s h v) k = slotGet s k := by
  simp [slotGet, setSlot, List.getD_eq_getElem?_getD,
        List.getElem?_set_ne (fun e => hk e.symm)]

theorem setSlot_oob (s : Transactions) (h : Nat) (v : TransactionInfo)
    (hh : slotCount s ≤ h) : setSlot s h v = s := by
  simp [setSlot, List.set_eq_of_length_le hh]

theorem lookupInfo_some_iff (s : Transactions) (h : Nat) (info : TransactionInfo) :
    lookupInfo s h = some info ↔
      h < slotCount s ∧ info = slotGet s h ∧ (slotGet s h).gti_in_use = true := by
  unfold lookupInfo
  cases hg : s.gt_transactions_array.get? h with
  | none =>
    simp only [Option.none_bind]
    constructor
    · intro he
      exact absurd he (by simp)
    · rintro ⟨hlt, -, -⟩
      simp only [List.get?_eq_getElem?] at hg
      have hlen : s.gt_transactions_array.length ≤ h := List.getElem?_eq_none_iff.mp hg
      exact absurd hlt (by simp only [slotCount]; omega)
  | some w =>
    simp only [List.get?_eq_getElem?] at hg
    obtain ⟨hlt, hw⟩ := List.getElem?_eq_some_iff.mp hg
    have hsg : slotGet s h = w := by
      simp [slotGet, List.getD_eq_getElem?_getD, List.getElem?_eq_getElem hlt, hw]
    have hcnt : h < slotCount s := hlt
    simp only [Option.some_bind]
    constructor
    · intro he
      by_cases hu : w.gti_in_use = true
      · rw [if_pos hu] at he
        refine ⟨hcnt, ?_, ?_⟩
        · rw [hsg]
          exact (Option.some_inj.mp he).symm
        · rw [hsg]
          exact hu
      · rw [if_neg hu] at he
        exact absurd he (by simp)
    · rintro ⟨-, hinfo, hin⟩
      rw [hsg] at hin
      rw [if_pos hin, hinfo, hsg]

theorem lookupInfo_none_iff (s : Transactions) (h : Nat) :
    lookupInfo s h = none ↔ (slotCount s ≤ h ∨ (slotGet s h).gti_in_use = false) := by
  unfold lookupInfo
  cases hg : s.gt_transactions_array.get? h with
  | none =>
    simp only [List.get?_eq_getElem?] at hg
    have hlen : s.gt_transactions_array.length ≤ h := List.getElem?_eq_none_iff.mp hg
    simp only [Option.none_bind]
    constructor
    · intro _
      exact Or.inl hlen
    · intro _
      trivial
  | some w =>
    simp only [List.get?_eq_getElem?] at hg
    obtain ⟨hlt, hw⟩ := List.getElem?_eq_some_iff.mp hg
    have hsg : slotGet s h = w := by
      simp [slotGet, List.getD_eq_getElem?_getD, List.getElem?_eq_getElem hlt, hw]
    have hcnt : h < slotCount s := hlt
    simp only [Option.some_bind]
    constructor
    · intro he
      by_cases hu : w.gti_in_use = true
      · rw [if_pos hu] at he
        exact absurd he (by simp)
      · rw [hsg]
        exact Or.inr (by simpa using hu)
    · rintro (hle | hfalse)
      · exact absurd hle (by omega)
      · rw [hsg] at hfalse
        rw [if_neg (by simp [hfalse])]

theorem list_set_getD_self {α : Type} [Inhabited α] (l : List α) (h : Nat) :
    l.set h (l.getD h default) = l := by
  by_cases hl : h < l.length
  · apply List.ext_getElem?
    intro n
    by_cases hn : n = h
    · subst hn
      rw [List.getElem?_set_self (by omega)]
      simp [List.getD_eq_getElem?_getD, List.getElem?_eq_getElem hl]
    · exact List.getElem?_set_ne (fun e => hn e.symm)
  · exact List.set_eq_of_length_le (by omega)

theorem find?_congr {α : Type} (l : List α) (p q : α → Bool)
    (hpq : ∀ x ∈ l, p x = q x) : l.find? p = l.find? q := by
  induction l with
  | nil => rfl
  | cons a t ih =>
    have ha := hpq a (by simp)
    by_cases hp : p a
    · rw [List.find?_cons_of_pos _ hp, List.find?_cons_of_pos _ (ha ▸ hp)]
    · rw [List.find?_cons_of_neg _ hp,
          List.find?_cons_of_neg _ (by rw [← ha]; exact hp)]
      exact ih (fun x hx => hpq x (by simp [hx]))

/-! ### Equation lemmas for the generator loop -/

theorem genLoop_nil (s : Transactions) (x : Nat) : genLoop s [] x = ⟨s, true, [], [], x⟩ := rfl

theorem genLoop_cons_none (s : Transactions) (h : Nat) (rest : List Nat) (x : Nat)
    (hl : lookupInfo s h = none) :
    genLoop s (h :: rest) x = ⟨s, false, [], [], x⟩ := by
  rw [genLoop.eq_2, hl]

theorem genLoop_cons_valid (s : Transactions) (h : Nat) (rest : List Nat) (x : Nat)
    (info : TransactionInfo) (hl : lookupInfo s h = some info)
    (hv : GlobalTransactionIdIsValid info.gti_gxid = true) :
    genLoop s (h :: rest) x =
      ⟨(genLoop s rest x).st, (genLoop s rest x).ok,
        info.gti_gxid :: (genLoop s rest x).gxids,
        (genLoop s rest x).newHandles, (genLoop s rest x).xid⟩ := by
  rw [genLoop.eq_2, hl]
  simp [hv]

theorem genLoop_cons_stop (s : Transactions) (h : Nat) (rest : List Nat) (x : Nat)
    (info : TransactionInfo) (hl : lookupInfo s h = some info)
    (hv : GlobalTransactionIdIsValid info.gti_gxid = false)
    (hstop : genStopCond s = true) :
    genLoop s (h :: rest) x = ⟨s, false, [], [], x⟩ := by
  rw [genLoop.eq_2, hl]
  rw [genStopCond] at hstop
  simp [hv, hstop]

theorem genLoop_cons_assign (s : Transactions) (h : Nat) (rest : List Nat) (x : Nat)
    (info : TransactionInfo) (hl : lookupInfo s h = some info)
    (hv : GlobalTransactionIdIsValid info.gti_gxid = false)
    (hstop : genStopCond s = false) :
    genLoop s (h :: rest) x =
      (let s1 := { setSlot s h { info with gti_gxid := s.gt_nextXid } with
                   gt_nextXid := GlobalTransactionIdAdvance s.gt_nextXid }
       ⟨(genLoop s1 rest s.gt_nextXid).st, (genLoop s1 rest s.gt_nextXid).ok,
         s.gt_nextXid :: (genLoop s1 rest s.gt_nextXid).gxids,
         info.gti_handle :: (genLoop s1 rest s.gt_nextXid).newHandles,
         (genLoop s1 rest s.gt_nextXid).xid⟩) := by
  rw [genLoop.eq_2, hl]
  rw [genStopCond] at hstop
  simp [hv, hstop]

theorem genLoop_controlXid (hs : List Nat) : ∀ (s : Transactions) (x : Nat),
    (genLoop s hs x).st.controlXid = s.controlXid := by
  induction hs with
  | nil => intro s x; rfl
  | cons h rest ih =>
    intro s x
    cases hl : lookupInfo s h with
    | none => rw [genLoop_cons_none s h rest x hl]
    | some info =>
      by_cases hv : GlobalTransactionIdIsValid info.gti_gxid = true
      · rw [genLoop_cons_valid s h rest x info hl hv]
        exact ih s x
      · replace hv : GlobalTransactionIdIsValid info.gti_gxid = false := by
          simpa using hv
        by_cases hstop : genStopCond s = true
        · rw [genLoop_cons_stop s h rest x info hl hv hstop]
        · replace hstop : genStopCond s = false := by simpa using hstop
          rw [genLoop_cons_assign s h rest x info hl hv hstop]
          exact ih _ _

theorem genLoop_newHandles_nil (hs : List Nat) : ∀ (s : Transactions) (x : Nat),
    (genLoop s hs x).newHandles = [] → (genLoop s hs x).xid = x := by
  induction hs with
  | nil => intro s x _; rfl
  | cons h rest ih =>
    intro s x
    cases hl : lookupInfo s h with
    | none => rw [genLoop_cons_none s h rest x hl]; intro _; rfl
    | some info =>
      by_cases hv : GlobalTransactionIdIsValid info.gti_gxid = true
      · rw [genLoop_cons_valid s h rest x info hl hv]
        exact ih s x
      · replace hv : GlobalTransactionIdIsValid info.gti_gxid = false := by
          simpa using hv
        by_cases hstop : genStopCond s = true
        · rw [genLoop_cons_stop s h rest x info hl hv hstop]
          intro _; rfl
        · replace hstop : genStopCond s = false := by simpa using hstop
          rw [genLoop_cons_assign s h rest x info hl hv hstop]
          intro hnew
          exact absurd hnew (by simp)

/-! ### C10: Prepare performs no state check -/

/-- C10: GTM_PrepareTransaction performs no runtime check of the slot's
current state: for every handle whose slot is in use, whatever its current
state, the state is overwritten with Prepared and STATUS_OK is returned
(other slots are untouched); STATUS_ERROR is returned, with the table
unchanged, exactly when the handle is invalid or the slot is not in use. -/
theorem C10_prepare_overwrites_any_state (s : Transactions) (h : Nat) :
    (∀ info, lookupInfo s h = some info →
      GTM_PrepareTransaction s h = (setTxnState s h TxnState.prepared, Status.ok) ∧
      (slotGet (GTM_PrepareTransaction s h).1 h).gti_state = TxnState.prepared ∧
      ∀ k, k ≠ h → slotGet (GTM_PrepareTransaction s h).1 k = slotGet s k) ∧
    (lookupInfo s h = none → GTM_PrepareTransaction s h = (s, Status.error)) := by
  constructor
  · intro info hl
    have hred : GTM_PrepareTransaction s h = (setTxnState s h TxnState.prepared, Status.ok) := by
      unfold GTM_PrepareTransaction
      rw [hl]
    obtain ⟨hlt, -, -⟩ := (lookupInfo_some_iff s h info).mp hl
    refine ⟨hred, ?_, ?_⟩
    · rw [hred]
      show (slotGet (setTxnState s h TxnState.prepared) h).gti_state = _
      rw [setTxnState, slotGet_setSlot_self _ _ _ hlt]
    · intro k hk
      rw [hred]
      show slotGet (setTxnState s h TxnState.prepared) k = _
      rw [setTxnState, slotGet_setSlot_ne _ _ _ _ hk]
  · intro hl
    unfold GTM_PrepareTransaction
    rw [hl]

/-- Witness for C10: preparing a slot that is merely Running (never
PrepareInProgress) still succeeds and lands in Prepared. -/
theorem C10_prepare_overwrites_any_state_witness :
    (slotGet sampleTwo 0).gti_state = TxnState.running ∧
    GTM_PrepareTransaction sampleTwo 0 = (setTxnState sampleTwo 0 TxnState.prepared, Status.ok) ∧
    (slotGet (GTM_PrepareTransaction sampleTwo 0).1 0).gti_state = TxnState.prepared := by
  have h := (C10_prepare_overwrites_any_state sampleTwo 0).1 (sampleSlot 0 100 "s0") (by decide)
  exact ⟨by decide, h.1, h.2.1⟩

/-! ### C5: handle-to-slot lookup bounds check is off by one -/

/-- C5: the handle lookup's range test is `handle > MAX` rather than
`handle >= MAX`, so handle = MAX (the array length, 4 here) passes the test
and the slot array is read one past its end, while the claim says every
handle outside [0, MAX-1] gets the InvalidHandle result without any
out-of-range read.  Handles above MAX and negative handles are rejected, an
in-range in-use handle is found, and an in-range free handle is rejected. -/
theorem C5_handle_lookup_reads_one_past_array :
    GTM_HandleToTransactionInfo sampleFull4.gt_transactions_array 4 =
      HandleLookup.outOfRangeRead ∧
    GTM_HandleToTransactionInfo sampleFull4.gt_transactions_array 5 = HandleLookup.invalid ∧
    GTM_HandleToTransactionInfo sampleFull4.gt_transactions_array (-1) = HandleLookup.invalid ∧
    GTM_HandleToTransactionInfo sampleFull4.gt_transactions_array 2 =
      HandleLookup.found (sampleSlot 2 102 "s2") ∧
    GTM_HandleToTransactionInfo sampleTwo.gt_transactions_array 2 = HandleLookup.invalid := by
  decide

/-! ### C4: the full-table scan misses the capacity error at the initial cursor -/

/-- C4: with every slot of a 4-slot table in use, the free-slot scan raises
the capacity error when the cursor has a real slot value (2 here), but at
the cursor's initial value -1 the `ii == gt_lastslot` guard never fires: the
scan walks all 4 positions and falls through with no slot claimed and no
error, after which the C code dereferences a NULL info pointer — the begin
operation proceeds with no slot instead of failing with CapacityExhausted.
When a free slot exists, the first free slot in cyclic order from
(last_slot + 1) is claimed, the cursor is updated and the slot is appended
to the open list. -/
theorem C4_alloc_scan_initial_cursor_falls_through :
    allocScan sampleFull4.gt_transactions_array (-1) = AllocScan.fellThrough 0 ∧
    allocScan sampleFull4.gt_transactions_array 2 = AllocScan.capacityError ∧
    GTM_BeginTransactionOne { sampleFull4 with gt_lastslot := -1 } sampleArgX = none ∧
    GTM_BeginTransactionOne sampleFull4 sampleArgX = none ∧
    allocScan sampleTwo.gt_transactions_array sampleTwo.gt_lastslot = AllocScan.claimed 2 ∧
    (GTM_BeginTransactionOne sampleTwo sampleArgX).map
        (fun r => (r.2, r.1.gt_lastslot, r.1.gt_open_transactions)) =
      some (2, 2, [0, 1, 2]) := by
  decide

/-! ### C3: the control checkpoint trigger is strict -/

/-- The saveControlCond written out as a proposition. -/
theorem saveControlCond_iff (ci x c : Nat) :
    saveControlCond ci x c = true ↔
      (x ≠ InvalidGlobalTransactionId ∧ (ci < gxidDiff x c ∨ x < c)) := by
  simp [saveControlCond, GlobalTransactionIdIsValid]

/-- C3 counterexample: with control_gxid = 3 and CONTROL_INTERVAL = 8192,
a run that assigns the single GXID 8195 has xid − control_gxid equal to
exactly CONTROL_INTERVAL; the claim's `≥` trigger fires, but the code
(strict `>`) does not save the control file. -/
theorem C3_checkpoint_counterexample :
    (GTM_GetGlobalTransactionIdMulti 8192 false sampleGen [0]).ok = true ∧
    (GTM_GetGlobalTransactionIdMulti 8192 false sampleGen [0]).xid = 8195 ∧
    gxidDiff 8195 sampleGen.controlXid = 8192 ∧
    specSaveCond 8192 8195 sampleGen.controlXid = true ∧
    (GTM_GetGlobalTransactionIdMulti 8192 false sampleGen [0]).saveControl = false ∧
    (GTM_GetGlobalTransactionIdMulti 8192 false sampleGen [0]).st.controlXid =
      sampleGen.controlXid := by
  decide

/-- C3 (amended): after a successful generator run, the control checkpoint
is marked (and control_gxid set to xid) if and only if
xid − control_gxid > CONTROL_INTERVAL (strictly, modular subtraction) or
xid < control_gxid, where xid is the last GXID read from gt_nextXid; when
no GXID was assigned xid is the invalid id and no save happens. -/
theorem C3_checkpoint_strict_trigger (ci : Nat) (stby : Bool) (s : Transactions)
    (handles : List Nat) (r : GenResult)
    (hr : GTM_GetGlobalTransactionIdMulti ci stby s handles = r) (hok : r.ok = true) :
    (r.saveControl = true ↔
      (r.xid ≠ InvalidGlobalTransactionId ∧
        (ci < gxidDiff r.xid s.controlXid ∨ r.xid < s.controlXid))) ∧
    (r.saveControl = true → r.st.controlXid = r.xid) ∧
    (r.saveControl = false → r.st.controlXid = s.controlXid) ∧
    (r.newHandles = [] → r.xid = InvalidGlobalTransactionId) := by
  unfold GTM_GetGlobalTransactionIdMulti at hr
  by_cases hstby : stby = true
  · rw [if_pos hstby] at hr
    subst hr
    simp at hok
  · rw [if_neg hstby] at hr
    by_cases hshut : (s.gt_gtm_state == RunState.shuttingDown) = true
    · rw [if_pos hshut] at hr
      subst hr
      simp at hok
    · rw [if_neg hshut] at hr
      have hctrl : (genLoop s handles InvalidGlobalTransactionId).st.controlXid = s.controlXid :=
        genLoop_controlXid handles s _
      by_cases hlok : (genLoop s handles InvalidGlobalTransactionId).ok = true
      · rw [if_pos hlok] at hr
        by_cases hsc : saveControlCond ci (genLoop s handles InvalidGlobalTransactionId).xid
            (genLoop s handles InvalidGlobalTransactionId).st.controlXid = true
        · rw [if_pos hsc] at hr
          rw [hctrl] at hsc
          subst hr
          refine ⟨?_, ?_, ?_, ?_⟩
          · simpa using (saveControlCond_iff _ _ _).mp hsc
          · intro _
            rfl
          · intro hfalse
            exact absurd hfalse (by simp)
          · intro hnew
            exact genLoop_newHandles_nil handles s _ hnew
        · rw [if_neg hsc] at hr
          rw [hctrl] at hsc
          subst hr
          refine ⟨?_, ?_, ?_, ?_⟩
          · constructor
            · intro hfalse
              exact absurd hfalse (by simp)
            · intro hcond
              exact absurd ((saveControlCond_iff _ _ _).mpr hcond) hsc
          · intro hfalse
            exact absurd hfalse (by simp)
          · intro _
            exact hctrl
          · intro hnew
            exact genLoop_newHandles_nil handles s _ hnew
      · rw [if_neg hlok] at hr
        subst hr
        simp at hok

/-- Witness for C3 (amended): one step past the interval the checkpoint
fires and control_gxid becomes the assigned xid 8196. -/
theorem C3_checkpoint_strict_trigger_witness :
    (GTM_GetGlobalTransactionIdMulti 8192 false sampleGenB [0]).saveControl = true ∧
    (GTM_GetGlobalTransactionIdMulti 8192 false sampleGenB [0]).st.controlXid = 8196 := by
  have h := C3_checkpoint_strict_trigger 8192 false sampleGenB [0]
      (GTM_GetGlobalTransactionIdMulti 8192 false sampleGenB [0]) rfl (by decide)
  have hsave : (GTM_GetGlobalTransactionIdMulti 8192 false sampleGenB [0]).saveControl = true :=
    h.1.mpr (by decide)
  refine ⟨hsave, ?_⟩
  have := h.2.1 hsave
  rw [this]
  decide

/-! ### Begin / standby-begin basics -/

theorem beginOne_scalar_fields (s : Transactions) (a : BeginArg) (s1 : Transactions) (h : Nat)
    (hb : GTM_BeginTransactionOne s a = some (s1, h)) :
    s1.gt_nextXid = s.gt_nextXid ∧ s1.controlXid = s.controlXid ∧
    s1.gt_latestCompletedXid = s.gt_latestCompletedXid ∧
    s1.gt_gtm_state = s.gt_gtm_state ∧ slotCount s1 = slotCount s := by
  unfold GTM_BeginTransactionOne at hb
  split at hb
  · injection hb with hb1
    injection hb1 with hb2 hb3
    subst hb2
    exact ⟨rfl, rfl, rfl, rfl, rfl⟩
  · split at hb
    · injection hb with hb1
      injection hb1 with hb2 hb3
      subst hb2
      refine ⟨rfl, rfl, rfl, rfl, ?_⟩
      simp [slotCount]
    · exact absurd hb (by simp)

theorem beginMultiGo_single_none (s : Transactions) (a : BeginArg)
    (hb : GTM_BeginTransactionOne s a = none) :
    beginMultiGo s [a] = (s, none) := by
  unfold beginMultiGo
  rw [hb]

theorem beginMultiGo_single_some (s : Transactions) (a : BeginArg) (s1 : Transactions) (h : Nat)
    (hb : GTM_BeginTransactionOne s a = some (s1, h)) :
    beginMultiGo s [a] = (s1, some [h]) := by
  unfold beginMultiGo
  rw [hb]
  rfl

theorem bkupAdvanceCode_eq_spec (next g : Nat) (hg : FirstNormalGlobalTransactionId ≤ g)
    (hlt : g < gxidMod) (hn : FirstNormalGlobalTransactionId ≤ next) :
    bkupAdvanceCode next g = specBkupAdvance next g := by
  unfold bkupAdvanceCode specBkupAdvance
  rw [FirstNormalGlobalTransactionId] at hg hn
  by_cases hp : GlobalTransactionIdPrecedesOrEquals next g = true
  · simp only [hp, eq_self_iff_true, if_true]
    by_cases hw : g + 1 = gxidMod
    · rw [hw, Nat.mod_self]
      norm_num [InvalidGlobalTransactionId, FirstNormalGlobalTransactionId]
    · have hm : (g + 1) % gxidMod = g + 1 := Nat.mod_eq_of_lt (by omega)
      rw [hm, if_neg (by simp only [InvalidGlobalTransactionId]; omega),
          if_neg (by simp only [FirstNormalGlobalTransactionId]; omega)]
  · simp only [Bool.not_eq_true] at hp
    simp only [hp, Bool.false_eq_true, if_false]
    rw [if_neg (by simp only [InvalidGlobalTransactionId]; omega)]

theorem bkupMulti_eq_none (ci : Nat) (s : Transactions) (args : List (Nat × BeginArg))
    (s1 : Transactions) (hb : beginMultiGo s (args.map Prod.snd) = (s1, none)) :
    GTM_BkupBeginTransactionGetGXIDMulti ci s args = ⟨s1, none, false⟩ := by
  unfold GTM_BkupBeginTransactionGetGXIDMulti
  rw [hb]

theorem bkupMulti_eq_some (ci : Nat) (s : Transactions) (args : List (Nat × BeginArg))
    (s1 : Transactions) (hs : List Nat)
    (hb : beginMultiGo s (args.map Prod.snd) = (s1, some hs)) :
    GTM_BkupBeginTransactionGetGXIDMulti ci s args =
      (if saveControlCond ci (bkupLoop s1 hs args InvalidGlobalTransactionId).2
          (bkupLoop s1 hs args InvalidGlobalTransactionId).1.controlXid then
        ⟨{ (bkupLoop s1 hs args InvalidGlobalTransactionId).1 with
            controlXid := (bkupLoop s1 hs args InvalidGlobalTransactionId).2 }, some hs, true⟩
      else ⟨(bkupLoop s1 hs args InvalidGlobalTransactionId).1, some hs, false⟩) := by
  unfold GTM_BkupBeginTransactionGetGXIDMulti
  rw [hb]

/-! ### C8: standby next_gxid advancement -/

/-- C8 counterexample: a mirror call carrying the reserved GXID 1, on a
standby whose gt_nextXid modularly precedes it, advances gt_nextXid to 2 —
a value in the reserved range below FirstNormalGxid = 3 — while the claim
says a reserved advanced value is wrapped to FirstNormalGxid. -/
theorem C8_reserved_range_counterexample :
    GlobalTransactionIdPrecedesOrEquals sampleHalf.gt_nextXid 1 = true ∧
    (GTM_BkupBeginTransactionGetGXID 8192 sampleHalf 1 sampleArgX).st.gt_nextXid = 2 ∧
    specBkupAdvance sampleHalf.gt_nextXid 1 = 3 ∧
    (2 : Nat) < FirstNormalGlobalTransactionId := by
  decide

/-- C8 (amended): after a replayed begin-with-GXID mirror call carrying
GXID g, gt_nextXid is advanced to (g + 1) mod 2^32 whenever its previous
value precedes-or-equals g under modular comparison (else left unchanged),
and only an advanced value equal to the invalid GXID 0 is wrapped to
FirstNormalGxid (the reserved values 1 and 2 are kept as they are); for a
normal g and a normal previous gt_nextXid this coincides with the original
claim. -/
theorem C8_bkup_advance (ci : Nat) (s : Transactions) (g : Nat) (a : BeginArg)
    (out : BkupOut) (hr : GTM_BkupBeginTransactionGetGXID ci s g a = out)
    (hs : out.txns ≠ none) :
    out.st.gt_nextXid = bkupAdvanceCode s.gt_nextXid g ∧
    (FirstNormalGlobalTransactionId ≤ g → g < gxidMod →
      FirstNormalGlobalTransactionId ≤ s.gt_nextXid →
      out.st.gt_nextXid = specBkupAdvance s.gt_nextXid g) := by
  have hmain : out.st.gt_nextXid = bkupAdvanceCode s.gt_nextXid g := by
    unfold GTM_BkupBeginTransactionGetGXID at hr
    cases hb : GTM_BeginTransactionOne s a with
    | none =>
      rw [bkupMulti_eq_none ci s [(g, a)] s (beginMultiGo_single_none s a hb)] at hr
      subst hr
      simp at hs
    | some p =>
      obtain ⟨s1, h⟩ := p
      rw [bkupMulti_eq_some ci s [(g, a)] s1 [h] (beginMultiGo_single_some s a s1 h hb)] at hr
      have hnx : s1.gt_nextXid = s.gt_nextXid := (beginOne_scalar_fields s a s1 h hb).1
      have hloop : (bkupLoop s1 [h] [(g, a)] InvalidGlobalTransactionId).1.gt_nextXid =
          bkupAdvanceCode s.gt_nextXid g := by
        rw [bkupLoop.eq_1]
        cases hl : lookupInfo s1 h with
        | none =>
          simp only [hl]
          rw [hnx]
          rfl
        | some info =>
          simp only [hl]
          have hnx2 : (setSlot s1 h
              { info with gti_gxid := g, gti_global_session_id := a.sessionid }).gt_nextXid =
              s.gt_nextXid := hnx
          rw [hnx2]
          rfl
      set r := bkupLoop s1 [h] [(g, a)] InvalidGlobalTransactionId with hrdef
      by_cases hsc : saveControlCond ci r.2 r.1.controlXid = true
      · rw [if_pos hsc] at hr
        subst hr
        exact hloop
      · rw [if_neg hsc] at hr
        subst hr
        exact hloop
  refine ⟨hmain, ?_⟩
  intro hg hlt hn
  rw [hmain]
  exact bkupAdvanceCode_eq_spec s.gt_nextXid g hg hlt hn

/-- Witness for C8 (amended), at a concrete call where the previous
gt_nextXid strictly follows the received GXID and is left unchanged. -/
theorem C8_bkup_advance_witness :
    (GTM_BkupBeginTransactionGetGXID 8192 sampleHalf 100 sampleArgX).st.gt_nextXid =
      bkupAdvanceCode sampleHalf.gt_nextXid 100 ∧
    (GTM_BkupBeginTransactionGetGXID 8192 sampleHalf 100 sampleArgX).st.gt_nextXid =
      specBkupAdvance sampleHalf.gt_nextXid 100 := by
  have h := C8_bkup_advance 8192 sampleHalf 100 sampleArgX
      (GTM_BkupBeginTransactionGetGXID 8192 sampleHalf 100 sampleArgX) rfl (by decide)
  exact ⟨h.1, h.2 (by decide) (by decide) (by decide)⟩

/-! ### C9: standby mirror-begin idempotence -/

/-- C9 counterexample: the same mirror begin (GXID 100, empty session id)
replayed twice on an initially empty standby opens two distinct slots
carrying the same GXID, so the final state differs from applying the call
once — replay is not idempotent for an empty session id. -/
theorem C9_empty_session_not_idempotent :
    c9once.gt_open_transactions = [0] ∧
    c9twice.gt_open_transactions = [0, 1] ∧
    (slotGet c9twice 0).gti_gxid = 100 ∧
    (slotGet c9twice 1).gti_gxid = 100 ∧
    c9twice ≠ c9once := by
  decide

/-! ### Facts about slot updates and removal -/

theorem removeOne_open (s : Transactions) (k : Nat) :
    (removeOne s k).gt_open_transactions = s.gt_open_transactions.erase k := rfl

theorem removeOne_latest (s : Transactions) (k : Nat) :
    (removeOne s k).gt_latestCompletedXid =
      latestUpd s.gt_latestCompletedXid (slotGet s k).gti_gxid := rfl

theorem removeOne_count (s : Transactions) (k : Nat) :
    slotCount (removeOne s k) = slotCount s := by
  simp [removeOne, slotCount]

theorem slotGet_removeOne_ne (s : Transactions) (k x : Nat) (hx : x ≠ k) :
    slotGet (removeOne s k) x = slotGet s x :=
  slotGet_setSlot_ne s k x (GTM_TransactionInfo_Clean (slotGet s k)) hx

theorem slotGet_removeOne_self (s : Transactions) (k : Nat) (hk : k < slotCount s) :
    slotGet (removeOne s k) k = GTM_TransactionInfo_Clean (slotGet s k) :=
  slotGet_setSlot_self s k (GTM_TransactionInfo_Clean (slotGet s k)) hk

theorem removeOne_gxid (s : Transactions) (k x : Nat) :
    (slotGet (removeOne s k) x).gti_gxid = (slotGet s x).gti_gxid := by
  by_cases hx : x = k
  · subst hx
    by_cases hk : x < slotCount s
    · rw [slotGet_removeOne_self s x hk]
      rfl
    · have hsame : slotGet (removeOne s x) x = slotGet s x := by
        show slotGet (setSlot s x (GTM_TransactionInfo_Clean (slotGet s x))) x = slotGet s x
        rw [setSlot_oob s x _ (by omega)]
      rw [hsame]
  · rw [slotGet_removeOne_ne s k x hx]

theorem setTxnState_open (s : Transactions) (h : Nat) (st : TxnState) :
    (setTxnState s h st).gt_open_transactions = s.gt_open_transactions := rfl

theorem setTxnState_count (s : Transactions) (h : Nat) (st : TxnState) :
    slotCount (setTxnState s h st) = slotCount s := by
  simp [setTxnState, setSlot, slotCount]

theorem slotGet_setTxnState_ne (s : Transactions) (h x : Nat) (st : TxnState) (hx : x ≠ h) :
    slotGet (setTxnState s h st) x = slotGet s x :=
  slotGet_setSlot_ne s h x _ hx

theorem slotGet_setTxnState_gxid (s : Transactions) (h x : Nat) (st : TxnState) :
    (slotGet (setTxnState s h st) x).gti_gxid = (slotGet s x).gti_gxid := by
  by_cases hx : x = h
  · subst hx
    by_cases hl : x < slotCount s
    · rw [setTxnState, slotGet_setSlot_self s x _ hl]
    · rw [setTxnState, setSlot_oob s x _ (by omega)]
  · rw [slotGet_setTxnState_ne s h x st hx]

theorem slotGet_setTxnState_in_use (s : Transactions) (h x : Nat) (st : TxnState) :
    (slotGet (setTxnState s h st) x).gti_in_use = (slotGet s x).gti_in_use := by
  by_cases hx : x = h
  · subst hx
    by_cases hl : x < slotCount s
    · rw [setTxnState, slotGet_setSlot_self s x _ hl]
    · rw [setTxnState, setSlot_oob s x _ (by omega)]
  · rw [slotGet_setTxnState_ne s h x st hx]

theorem isInProgress_setTxnState (s : Transactions) (h : Nat) (st : TxnState) (w : Nat) :
    GTM_IsGXIDInProgress (setTxnState s h st) w = GTM_IsGXIDInProgress s w := by
  unfold GTM_IsGXIDInProgress GTM_GXIDToHandle_Internal
  by_cases hv : GlobalTransactionIdIsValid w = true
  · simp only [hv, if_pos]
    rw [setTxnState_open]
    rw [find?_congr s.gt_open_transactions _ _
      (fun x _ => by rw [slotGet_setTxnState_gxid])]
  · simp only [Bool.not_eq_true] at hv
    simp only [hv, Bool.false_eq_true, if_false]

theorem delayedCond_setTxnState (s : Transactions) (h : Nat) (st : TxnState)
    (waited : List Nat) :
    delayedCond (setTxnState s h st) waited = delayedCond s waited := by
  unfold delayedCond
  have hfun : (fun w => GTM_IsGXIDInProgress (setTxnState s h st) w) =
      (fun w => GTM_IsGXIDInProgress s w) := by
    funext w
    exact isInProgress_setTxnState s h st w
  rw [hfun]

theorem lookupInfo_setTxnState_isSome (s : Transactions) (k : Nat) (st : TxnState) (h : Nat) :
    (lookupInfo (setTxnState s k st) h).isSome = (lookupInfo s h).isSome := by
  by_cases hn : lookupInfo s h = none
  · have := (lookupInfo_none_iff s h).mp hn
    have hn2 : lookupInfo (setTxnState s k st) h = none := by
      rw [lookupInfo_none_iff, setTxnState_count, slotGet_setTxnState_in_use]
      exact this
    rw [hn, hn2]
  · obtain ⟨info, hs⟩ := Option.ne_none_iff_exists'.mp hn
    obtain ⟨hlt, -, hu⟩ := (lookupInfo_some_iff s h info).mp hs
    have hs2 : lookupInfo (setTxnState s k st) h =
        some (slotGet (setTxnState s k st) h) := by
      rw [lookupInfo_some_iff]
      refine ⟨by rw [setTxnState_count]; exact hlt, rfl, ?_⟩
      rw [slotGet_setTxnState_in_use]
      exact hu
    rw [hs, hs2]
    rfl

/-! ### The latest-completed fold is the spec's modular maximum -/

theorem latestUpd_of_normal (init g : Nat) (hn : GlobalTransactionIdIsNormal g = true) :
    latestUpd init g = (if GlobalTransactionIdFollowsOrEquals g init then g else init) := by
  simp [latestUpd, hn]

theorem latestUpd_of_not_normal (init g : Nat) (hn : GlobalTransactionIdIsNormal g = false) :
    latestUpd init g = init := by
  simp [latestUpd, hn]

theorem foldl_latestUpd_eq_specModularMax (gs : List Nat) : ∀ init : Nat,
    gs.foldl latestUpd init = specModularMax init (gs.filter GlobalTransactionIdIsNormal) := by
  induction gs with
  | nil => intro init; rfl
  | cons g rest ih =>
    intro init
    by_cases hn : GlobalTransactionIdIsNormal g = true
    · rw [List.foldl_cons, List.filter_cons_of_pos hn]
      rw [ih (latestUpd init g)]
      unfold specModularMax
      rw [List.foldl_cons, latestUpd_of_normal init g hn]
    · replace hn : GlobalTransactionIdIsNormal g = false := by simpa using hn
      rw [List.foldl_cons, List.filter_cons_of_neg (by simp [hn])]
      rw [latestUpd_of_not_normal init g hn]
      exact ih init

/-! ### The removal batch -/

theorem removeMulti_nil (s : Transactions) : GTM_RemoveTransInfoMulti s [] = s := rfl

theorem removeMulti_cons_none (s : Transactions) (rest : List (Option Nat)) :
    GTM_RemoveTransInfoMulti s (none :: rest) = GTM_RemoveTransInfoMulti s rest := rfl

theorem removeMulti_cons_some (s : Transactions) (k : Nat) (rest : List (Option Nat)) :
    GTM_RemoveTransInfoMulti s (some k :: rest) =
      GTM_RemoveTransInfoMulti (removeOne s k) rest := rfl

theorem removeMulti_gxid (batch : List (Option Nat)) : ∀ (s : Transactions) (x : Nat),
    (slotGet (GTM_RemoveTransInfoMulti s batch) x).gti_gxid = (slotGet s x).gti_gxid := by
  induction batch with
  | nil => intro s x; rfl
  | cons ob rest ih =>
    intro s x
    cases ob with
    | none => rw [removeMulti_cons_none]; exact ih s x
    | some k =>
      rw [removeMulti_cons_some]
      rw [ih (removeOne s k) x]
      exact removeOne_gxid s k x

theorem removeMulti_latest (batch : List (Option Nat)) : ∀ s : Transactions,
    (GTM_RemoveTransInfoMulti s batch).gt_latestCompletedXid =
      ((batch.filterMap id).map (fun k => (slotGet s k).gti_gxid)).foldl latestUpd
        s.gt_latestCompletedXid := by
  induction batch with
  | nil => intro s; rfl
  | cons ob rest ih =>
    intro s
    cases ob with
    | none =>
      rw [removeMulti_cons_none]
      rw [ih s]
      simp [List.filterMap_cons]
    | some k =>
      rw [removeMulti_cons_some]
      rw [ih (removeOne s k)]
      have hmap : (rest.filterMap id).map (fun j => (slotGet (removeOne s k) j).gti_gxid) =
          (rest.filterMap id).map (fun j => (slotGet s j).gti_gxid) := by
        apply List.map_congr_left
        intro j _
        exact removeOne_gxid s k j
      rw [hmap, removeOne_latest]
      simp [List.filterMap_cons]

theorem removeMulti_open_sublist (batch : List (Option Nat)) : ∀ s : Transactions,
    (GTM_RemoveTransInfoMulti s batch).gt_open_transactions.Sublist
      s.gt_open_transactions := by
  induction batch with
  | nil => intro s; exact List.Sublist.refl _
  | cons ob rest ih =>
    intro s
    cases ob with
    | none => rw [removeMulti_cons_none]; exact ih s
    | some k =>
      rw [removeMulti_cons_some]
      refine List.Sublist.trans (ih (removeOne s k)) ?_
      rw [removeOne_open]
      exact List.erase_sublist k s.gt_open_transactions

theorem removeMulti_not_mem (batch : List (Option Nat)) : ∀ (s : Transactions) (h : Nat),
    some h ∈ batch → s.gt_open_transactions.Nodup →
    h ∉ (GTM_RemoveTransInfoMulti s batch).gt_open_transactions := by
  induction batch with
  | nil => intro s h hmem _; simp at hmem
  | cons ob rest ih =>
    intro s h hmem hnd
    cases ob with
    | none =>
      rw [removeMulti_cons_none]
      have hmem2 : some h ∈ rest := by
        rcases List.mem_cons.mp hmem with he | ht
        · exact absurd he (by simp)
        · exact ht
      exact ih s h hmem2 hnd
    | some k =>
      rw [removeMulti_cons_some]
      by_cases hk : h = k
      · subst hk
        have hnm : h ∉ (removeOne s h).gt_open_transactions := by
          rw [removeOne_open]
          exact hnd.not_mem_erase
        intro hcontra
        exact hnm ((removeMulti_open_sublist rest (removeOne s h)).subset hcontra)
      · have hmem2 : some h ∈ rest := by
          rcases List.mem_cons.mp hmem with he | ht
          · exact absurd (Option.some_inj.mp he) hk
          · exact ht
        have hnd2 : (removeOne s k).gt_open_transactions.Nodup := by
          rw [removeOne_open]
          exact hnd.erase k
        exact ih (removeOne s k) h hmem2 hnd2

/-! ### The reaper traversal -/

theorem reapGo_nil (cid : Nat) (bid : Int) (acc : Transactions) :
    reapGo cid bid acc [] = acc := rfl

theorem reapGo_cons (cid : Nat) (bid : Int) (acc : Transactions) (h : Nat) (rest : List Nat) :
    reapGo cid bid acc (h :: rest) =
      if reapMatch (slotGet acc h) cid bid then reapGo cid bid (removeOne acc h) rest
      else reapGo cid bid acc rest := rfl

theorem reapGo_spec (cid : Nat) (bid : Int) (rest : List Nat) : ∀ (kept : List Nat)
    (acc : Transactions), acc.gt_open_transactions = kept ++ rest →
    (kept ++ rest).Nodup →
    ((reapGo cid bid acc rest).gt_open_transactions =
        kept ++ rest.filter (fun j => !(reapMatch (slotGet acc j) cid bid))) ∧
    ((reapGo cid bid acc rest).gt_latestCompletedXid =
        ((rest.filter (fun j => reapMatch (slotGet acc j) cid bid)).map
          (fun j => (slotGet acc j).gti_gxid)).foldl latestUpd acc.gt_latestCompletedXid) ∧
    (∀ x : Nat, (x ∈ rest → reapMatch (slotGet acc x) cid bid = false) →
        slotGet (reapGo cid bid acc rest) x = slotGet acc x) ∧
    slotCount (reapGo cid bid acc rest) = slotCount acc := by
  induction rest with
  | nil =>
    intro kept acc hopen hnd
    exact ⟨by simpa using hopen, rfl, fun x _ => rfl, rfl⟩
  | cons h rest ih =>
    intro kept acc hopen hnd
    obtain ⟨hndk, hndc, hdisj⟩ := List.nodup_append.mp hnd
    have hnotkept : h ∉ kept := fun hc => hdisj hc (by simp)
    have hnotrest : h ∉ rest := (List.nodup_cons.mp hndc).1
    rw [reapGo_cons]
    by_cases hm : reapMatch (slotGet acc h) cid bid = true
    · rw [if_pos hm]
      have hopen2 : (removeOne acc h).gt_open_transactions = kept ++ rest := by
        rw [removeOne_open, hopen, List.erase_append_right _ hnotkept,
            List.erase_cons_head]
      have hsub : (kept ++ rest).Sublist (kept ++ h :: rest) :=
        List.Sublist.append_left (List.sublist_cons_self h rest) kept
      have hnd2 : (kept ++ rest).Nodup := hnd.sublist hsub
      obtain ⟨io, il, isl, ic⟩ := ih kept (removeOne acc h) hopen2 hnd2
      have hslot : ∀ j ∈ rest, slotGet (removeOne acc h) j = slotGet acc j := by
        intro j hj
        exact slotGet_removeOne_ne acc h j (fun e => hnotrest (e ▸ hj))
      have hfcn : List.filter (fun j => !reapMatch (slotGet acc j) cid bid) (h :: rest) =
          List.filter (fun j => !reapMatch (slotGet acc j) cid bid) rest := by
        simp [List.filter_cons, hm]
      have hfcp : List.filter (fun j => reapMatch (slotGet acc j) cid bid) (h :: rest) =
          h :: List.filter (fun j => reapMatch (slotGet acc j) cid bid) rest := by
        simp [List.filter_cons, hm]
      refine ⟨?_, ?_, ?_, ?_⟩
      · rw [io, hfcn]
        congr 1
        apply List.filter_congr
        intro j hj
        rw [hslot j hj]
      · rw [il, removeOne_latest]
        rw [hfcp, List.map_cons, List.foldl_cons]
        have hfilter2 : List.filter (fun j => reapMatch (slotGet (removeOne acc h) j) cid bid)
            rest = List.filter (fun j => reapMatch (slotGet acc j) cid bid) rest := by
          apply List.filter_congr
          intro j hj
          rw [hslot j hj]
        rw [hfilter2]
        congr 1
        apply List.map_congr_left
        intro j hj
        rw [hslot j (List.mem_of_mem_filter hj)]
      · intro x hcond
        have hne : x ≠ h := by
          intro e
          subst e
          rw [hcond (by simp)] at hm
          exact absurd hm (by simp)
        rw [isl x (fun hr => by
          rw [slotGet_removeOne_ne acc h x hne]
          exact hcond (List.mem_cons_of_mem h hr))]
        exact slotGet_removeOne_ne acc h x hne
      · rw [ic]
        exact removeOne_count acc h
    · replace hm : reapMatch (slotGet acc h) cid bid = false := by simpa using hm
      rw [if_neg (by simp [hm])]
      have hopen2 : acc.gt_open_transactions = (kept ++ [h]) ++ rest := by
        rw [hopen, List.append_assoc, List.singleton_append]
      have hnd2 : ((kept ++ [h]) ++ rest).Nodup := by
        rw [List.append_assoc, List.singleton_append]
        exact hnd
      obtain ⟨io, il, isl, ic⟩ := ih (kept ++ [h]) acc hopen2 hnd2
      have hfcp : List.filter (fun j => !reapMatch (slotGet acc j) cid bid) (h :: rest) =
          h :: List.filter (fun j => !reapMatch (slotGet acc j) cid bid) rest := by
        simp [List.filter_cons, hm]
      have hfcn : List.filter (fun j => reapMatch (slotGet acc j) cid bid) (h :: rest) =
          List.filter (fun j => reapMatch (slotGet acc j) cid bid) rest := by
        simp [List.filter_cons, hm]
      refine ⟨?_, ?_, ?_, ?_⟩
      · rw [io, hfcp]
        rw [List.append_assoc, List.singleton_append]
      · rw [il, hfcn]
      · intro x hcond
        exact isl x (fun hr => hcond (List.mem_cons_of_mem h hr))
      · exact ic

/-- With the slot in use, the code's removal condition coincides with the
claim-side condition. -/
theorem reapMatch_eq_spec (info : TransactionInfo) (cid : Nat) (bid : Int)
    (hu : info.gti_in_use = true) :
    reapMatch info cid bid = specReapRemoves info cid bid := by
  unfold reapMatch specReapRemoves
  rw [hu]
  cases hp : (info.gti_state == TxnState.prepared) <;>
    cases hq : (info.gti_state == TxnState.prepareInProgress) <;>
      cases hc : (info.gti_client_id == cid) <;>
        cases hx : (info.gti_proxy_client_id == bid) <;>
          cases hb : (bid == -1) <;> rfl

/-! ### C6: the reaper removes exactly the matching non-prepared slots -/

/-- C6: for every reap(client_id, proxy_client_id) over a well-formed table,
the open list afterwards is exactly the open list filtered by the claim's
condition (client match, proxy match with -1 matching any, state neither
Prepared nor PrepareInProgress); every open slot in state Prepared or
PrepareInProgress stays in the open list with its slot record unchanged. -/
theorem C6_reap_exact (s : Transactions) (cid : Nat) (bid : Int) (hwf : WF s) :
    (GTM_RemoveAllTransInfos s cid bid).gt_open_transactions =
      s.gt_open_transactions.filter (fun h => !(specReapRemoves (slotGet s h) cid bid)) ∧
    (∀ h ∈ s.gt_open_transactions,
      ((slotGet s h).gti_state = TxnState.prepared ∨
        (slotGet s h).gti_state = TxnState.prepareInProgress) →
      h ∈ (GTM_RemoveAllTransInfos s cid bid).gt_open_transactions ∧
      slotGet (GTM_RemoveAllTransInfos s cid bid) h = slotGet s h) := by
  obtain ⟨hnd, hbound, hiff, -⟩ := hwf
  obtain ⟨io, -, isl, -⟩ := reapGo_spec cid bid s.gt_open_transactions [] s rfl (by simpa using hnd)
  have hspec : ∀ h ∈ s.gt_open_transactions,
      reapMatch (slotGet s h) cid bid = specReapRemoves (slotGet s h) cid bid := by
    intro h hh
    exact reapMatch_eq_spec _ cid bid (((hiff h (hbound h hh)).mpr hh))
  have hfilter : s.gt_open_transactions.filter
        (fun j => !(reapMatch (slotGet s j) cid bid)) =
      s.gt_open_transactions.filter (fun j => !(specReapRemoves (slotGet s j) cid bid)) := by
    apply List.filter_congr
    intro j hj
    rw [hspec j hj]
  have hopen : (GTM_RemoveAllTransInfos s cid bid).gt_open_transactions =
      s.gt_open_transactions.filter (fun j => !(specReapRemoves (slotGet s j) cid bid)) := by
    show (reapGo cid bid s s.gt_open_transactions).gt_open_transactions = _
    rw [io, hfilter]
    simp
  refine ⟨hopen, ?_⟩
  intro h hh hprep
  have hmfalse : reapMatch (slotGet s h) cid bid = false := by
    unfold reapMatch
    rcases hprep with hsp | hsp <;> simp [hsp]
  refine ⟨?_, ?_⟩
  · rw [hopen]
    rw [List.mem_filter]
    refine ⟨hh, ?_⟩
    rw [← hspec h hh, hmfalse]
    rfl
  · exact isl h (fun _ => hmfalse)

/-- Witness for C6: a reap that removes the running transaction of client 7
but keeps the prepared one. -/
theorem C6_reap_exact_witness :
    (GTM_RemoveAllTransInfos samplePrep 7 (-1)).gt_open_transactions = [1] ∧
    slotGet (GTM_RemoveAllTransInfos samplePrep 7 (-1)) 1 = slotGet samplePrep 1 := by
  have h := C6_reap_exact samplePrep 7 (-1) (by decide)
  constructor
  · rw [h.1]
    decide
  · exact (h.2 1 (by decide) (by decide)).2

/-! ### C2: latest_completed_gxid is the modular maximum of removed GXIDs -/

/-- C2: after any removal pass — the batched removal used by commit and
rollback, or the reaper — gt_latestCompletedXid equals the modular maximum
(32-bit follows comparison) of its previous value and the GXIDs of the
removed slots that carried a normal GXID; removed slots without a normal
GXID do not change it. -/
theorem C2_latest_completed_is_modular_max (s : Transactions) (batch : List (Option Nat))
    (cid : Nat) (bid : Int) (hnd : s.gt_open_transactions.Nodup) :
    (GTM_RemoveTransInfoMulti s batch).gt_latestCompletedXid =
      specModularMax s.gt_latestCompletedXid
        (((batch.filterMap id).map (fun k => (slotGet s k).gti_gxid)).filter
          GlobalTransactionIdIsNormal) ∧
    (GTM_RemoveAllTransInfos s cid bid).gt_latestCompletedXid =
      specModularMax s.gt_latestCompletedXid
        (((s.gt_open_transactions.filter (fun j => reapMatch (slotGet s j) cid bid)).map
          (fun j => (slotGet s j).gti_gxid)).filter GlobalTransactionIdIsNormal) := by
  constructor
  · rw [removeMulti_latest batch s]
    exact foldl_latestUpd_eq_specModularMax _ _
  · obtain ⟨-, il, -, -⟩ := reapGo_spec cid bid s.gt_open_transactions [] s rfl (by simpa using hnd)
    show (reapGo cid bid s s.gt_open_transactions).gt_latestCompletedXid = _
    rw [il]
    exact foldl_latestUpd_eq_specModularMax _ _

/-- Witness for C2: removing slots 1 and 0 (in that order) advances
gt_latestCompletedXid to the modular maximum 101; a reap of client 7
removes the running slot 0 and also yields 101 as the reap part states. -/
theorem C2_latest_completed_is_modular_max_witness :
    (GTM_RemoveTransInfoMulti sampleTwo [some 1, none, some 0]).gt_latestCompletedXid = 101 ∧
    specModularMax sampleTwo.gt_latestCompletedXid [101, 100] = 101 := by
  have h := (C2_latest_completed_is_modular_max sampleTwo [some 1, none, some 0] 7 (-1)
    (by decide)).1
  constructor
  · rw [h]
    decide
  · decide

/-! ### The commit loop -/

theorem commitStatusOf_congr (o1 o2 : Option TransactionInfo) (h : o1.isSome = o2.isSome) :
    commitStatusOf o1 = commitStatusOf o2 := by
  cases o1 <;> cases o2 <;> simp_all [commitStatusOf]

theorem lookupInfo_setTxnState_ne_none (s : Transactions) (k : Nat) (st : TxnState) (h : Nat) :
    (lookupInfo (setTxnState s k st) h ≠ none) ↔ (lookupInfo s h ≠ none) := by
  rw [← Option.isSome_iff_ne_none, ← Option.isSome_iff_ne_none,
      lookupInfo_setTxnState_isSome]

theorem commitPhase1_nil (w : List Nat) (s : Transactions) :
    commitPhase1 w s [] = (s, [], []) := rfl

theorem commitPhase1_cons_err (w : List Nat) (s : Transactions) (h : Nat) (rest : List Nat)
    (hl : lookupInfo s h = none) :
    commitPhase1 w s (h :: rest) =
      ((commitPhase1 w s rest).1, Status.error :: (commitPhase1 w s rest).2.1,
        (commitPhase1 w s rest).2.2) := by
  rw [commitPhase1.eq_2, hl]

theorem commitPhase1_cons_delayed (w : List Nat) (s : Transactions) (h : Nat)
    (rest : List Nat) (info : TransactionInfo) (hl : lookupInfo s h = some info)
    (hd : delayedCond s w = true) :
    commitPhase1 w s (h :: rest) =
      ((commitPhase1 w s rest).1, Status.delayed :: (commitPhase1 w s rest).2.1,
        (commitPhase1 w s rest).2.2) := by
  rw [commitPhase1.eq_2, hl]
  simp [hd]

theorem commitPhase1_cons_ok (w : List Nat) (s : Transactions) (h : Nat)
    (rest : List Nat) (info : TransactionInfo) (hl : lookupInfo s h = some info)
    (hd : delayedCond s w = false) :
    commitPhase1 w s (h :: rest) =
      ((commitPhase1 w (setTxnState s h TxnState.commitInProgress) rest).1,
       Status.ok :: (commitPhase1 w (setTxnState s h TxnState.commitInProgress) rest).2.1,
       h :: (commitPhase1 w (setTxnState s h TxnState.commitInProgress) rest).2.2) := by
  rw [commitPhase1.eq_2, hl]
  simp [hd]

theorem commitPhase1_all_delayed (w : List Nat) (txns : List Nat) : ∀ s : Transactions,
    delayedCond s w = true →
    commitPhase1 w s txns =
      (s, txns.map (fun h => commitStatusDelayed (lookupInfo s h)), []) := by
  induction txns with
  | nil => intro s _; rfl
  | cons h rest ih =>
    intro s hd
    cases hl : lookupInfo s h with
    | none =>
      rw [commitPhase1_cons_err w s h rest hl, ih s hd]
      simp [commitStatusDelayed, hl]
    | some info =>
      rw [commitPhase1_cons_delayed w s h rest info hl hd, ih s hd]
      simp [commitStatusDelayed, hl]

theorem commitPhase1_not_delayed (w : List Nat) (txns : List Nat) : ∀ s : Transactions,
    delayedCond s w = false →
    (commitPhase1 w s txns).1.gt_open_transactions = s.gt_open_transactions ∧
    (∀ (ii x : Nat), txns.get? ii = some x →
      (commitPhase1 w s txns).2.1.get? ii = some (commitStatusOf (lookupInfo s x))) ∧
    (∀ x : Nat, x ∈ (commitPhase1 w s txns).2.2 ↔ (x ∈ txns ∧ lookupInfo s x ≠ none)) := by
  induction txns with
  | nil =>
    intro s hd
    refine ⟨rfl, ?_, ?_⟩
    · intro ii x hx
      simp at hx
    · intro x
      rw [commitPhase1_nil]
      simp
  | cons h rest ih =>
    intro s hd
    cases hl : lookupInfo s h with
    | none =>
      rw [commitPhase1_cons_err w s h rest hl]
      obtain ⟨io, ist, ib⟩ := ih s hd
      refine ⟨io, ?_, ?_⟩
      · intro ii x hx
        cases ii with
        | zero =>
          simp at hx
          subst hx
          simp [hl, commitStatusOf]
        | succ n =>
          simp only [List.get?_cons_succ] at hx ⊢
          exact ist n x hx
      · intro x
        constructor
        · intro hx
          obtain ⟨hin, hnn⟩ := (ib x).mp hx
          exact ⟨List.mem_cons_of_mem _ hin, hnn⟩
        · rintro ⟨hin, hnn⟩
          rcases List.mem_cons.mp hin with he | ht
          · subst he
            exact absurd hl hnn
          · exact (ib x).mpr ⟨ht, hnn⟩
    | some info =>
      rw [commitPhase1_cons_ok w s h rest info hl hd]
      have hd2 : delayedCond (setTxnState s h TxnState.commitInProgress) w = false := by
        rw [delayedCond_setTxnState]
        exact hd
      obtain ⟨io, ist, ib⟩ := ih (setTxnState s h TxnState.commitInProgress) hd2
      have hsome : ∀ x : Nat,
          (lookupInfo (setTxnState s h TxnState.commitInProgress) x ≠ none) ↔
          (lookupInfo s x ≠ none) :=
        fun x => lookupInfo_setTxnState_ne_none s h TxnState.commitInProgress x
      refine ⟨?_, ?_, ?_⟩
      · rw [io, setTxnState_open]
      · intro ii x hx
        cases ii with
        | zero =>
          simp at hx
          subst hx
          simp [hl, commitStatusOf]
        | succ n =>
          simp only [List.get?_cons_succ] at hx ⊢
          rw [ist n x hx,
              commitStatusOf_congr _ _ (lookupInfo_setTxnState_isSome s h _ x)]
      · intro x
        constructor
        · intro hx
          rcases List.mem_cons.mp hx with he | ht
          · subst he
            exact ⟨List.mem_cons_self _ _, by simp [hl]⟩
          · obtain ⟨hin, hnn⟩ := (ib x).mp ht
            exact ⟨List.mem_cons_of_mem _ hin, (hsome x).mp hnn⟩
        · rintro ⟨hin, hnn⟩
          rcases List.mem_cons.mp hin with he | ht
          · subst he
            exact List.mem_cons_self _ _
          · exact List.mem_cons_of_mem _ ((ib x).mpr ⟨ht, (hsome x).mpr hnn⟩)

/-! ### C1: dependent commits are delayed, others committed and removed -/

/-- C1: for every commit request (single or batched) and every index ii
whose handle h has a usable slot: when some GXID of waited_xids is still in
the open-transaction list, the status at ii is Delayed and the whole table
is left unchanged — in particular the slot stays in the open list with its
record untouched; otherwise the status at ii is OK and the slot is removed
from the open list by the removal pass. -/
theorem C1_commit_delayed_or_removed (s : Transactions) (txn waited : List Nat)
    (ii h : Nat) (info : TransactionInfo) (hwf : WF s)
    (hh : txn.get? ii = some h) (hl : lookupInfo s h = some info) :
    (delayedCond s waited = true →
      (GTM_CommitTransactionMulti s txn waited).2.get? ii = some Status.delayed ∧
      (GTM_CommitTransactionMulti s txn waited).1 = s ∧
      h ∈ (GTM_CommitTransactionMulti s txn waited).1.gt_open_transactions ∧
      slotGet (GTM_CommitTransactionMulti s txn waited).1 h = slotGet s h) ∧
    (delayedCond s waited = false →
      (GTM_CommitTransactionMulti s txn waited).2.get? ii = some Status.ok ∧
      h ∉ (GTM_CommitTransactionMulti s txn waited).1.gt_open_transactions) := by
  obtain ⟨hlt, -, hu⟩ := (lookupInfo_some_iff s h info).mp hl
  have hmem : h ∈ s.gt_open_transactions := (hwf.2.2.1 h hlt).mp hu
  constructor
  · intro hd
    have hp := commitPhase1_all_delayed waited txn s hd
    have hstate : (GTM_CommitTransactionMulti s txn waited).1 = s := by
      unfold GTM_CommitTransactionMulti
      rw [hp]
      rfl
    refine ⟨?_, hstate, ?_, ?_⟩
    · show (commitPhase1 waited s txn).2.1.get? ii = _
      rw [hp]
      rw [List.get?_eq_getElem?] at hh
      simp only [List.get?_eq_getElem?, List.getElem?_map, hh, Option.map_some]
      simp [hl, commitStatusDelayed]
    · rw [hstate]
      exact hmem
    · rw [hstate]
  · intro hd
    obtain ⟨io, ist, ib⟩ := commitPhase1_not_delayed waited txn s hd
    refine ⟨?_, ?_⟩
    · show (commitPhase1 waited s txn).2.1.get? ii = _
      rw [ist ii h hh, hl]
      rfl
    · show h ∉ (GTM_RemoveTransInfoMulti (commitPhase1 waited s txn).1
        ((commitPhase1 waited s txn).2.2.map Option.some)).gt_open_transactions
      apply removeMulti_not_mem
      · exact List.mem_map_of_mem Option.some
          ((ib h).mpr ⟨List.get?_mem hh, by simp [hl]⟩)
      · rw [io]
        exact hwf.1

/-- Witness for C1: committing handle 1 with a waited GXID that is still
open yields Delayed and leaves the slot open; with a waited GXID that is
not open it yields OK and removes the slot. -/
theorem C1_commit_delayed_or_removed_witness :
    (GTM_CommitTransactionMulti sampleTwo [1] [100]).2.get? 0 = some Status.delayed ∧
    1 ∈ (GTM_CommitTransactionMulti sampleTwo [1] [100]).1.gt_open_transactions ∧
    (GTM_CommitTransactionMulti sampleTwo [1] [99]).2.get? 0 = some Status.ok ∧
    1 ∉ (GTM_CommitTransactionMulti sampleTwo [1] [99]).1.gt_open_transactions := by
  have hA := C1_commit_delayed_or_removed sampleTwo [1] [100] 0 1 (sampleSlot 1 101 "s1")
    (by decide) rfl (by decide)
  have hB := C1_commit_delayed_or_removed sampleTwo [1] [99] 0 1 (sampleSlot 1 101 "s1")
    (by decide) rfl (by decide)
  obtain ⟨d1, -, d3, -⟩ := hA.1 (by decide)
  obtain ⟨o1, o2⟩ := hB.2 (by decide)
  exact ⟨d1, d3, o1, o2⟩

/-! ### Facts for the standby idempotence -/

theorem find?_stable {α : Type} (l : List α) (p q : α → Bool) (a : α)
    (hf : l.find? p = some a) (hq : q a = true)
    (hagree : ∀ x ∈ l, x ≠ a → q x = p x) : l.find? q = some a := by
  induction l with
  | nil => simp at hf
  | cons b t ih =>
    by_cases hp : p b = true
    · rw [List.find?_cons_of_pos _ hp] at hf
      have hb : b = a := Option.some_inj.mp hf
      subst hb
      rw [List.find?_cons_of_pos _ hq]
    · rw [List.find?_cons_of_neg _ (by simpa using hp)] at hf
      by_cases hb : b = a
      · subst hb
        rw [List.find?_cons_of_pos _ hq]
      · have hqb : ¬ q b = true := by
          rw [hagree b (by simp) hb]
          simpa using hp
        rw [List.find?_cons_of_neg _ hqb]
        exact ih hf (fun x hx hxa => hagree x (by simp [hx]) hxa)

theorem allocScanFrom_claimed (arr : List TransactionInfo) (last : Int) :
    ∀ (fuel ii jj : Nat), ii < arr.length →
    allocScanFrom arr last ii fuel = AllocScan.claimed jj →
    jj < arr.length ∧ (arr.getD jj default).gti_in_use = false := by
  intro fuel
  induction fuel with
  | zero =>
    intro ii jj _ hc
    rw [allocScanFrom.eq_1] at hc
    cases hc
  | succ n ih =>
    intro ii jj hii hc
    rw [allocScanFrom.eq_2] at hc
    split_ifs at hc with h1 h2
    · cases hc
      exact ⟨hii, h1⟩
    · exact ih ((ii + 1) % arr.length) jj (Nat.mod_lt _ (by omega)) hc

theorem allocScan_claimed (arr : List TransactionInfo) (last : Int) (jj : Nat)
    (hc : allocScan arr last = AllocScan.claimed jj) :
    jj < arr.length ∧ (arr.getD jj default).gti_in_use = false := by
  unfold allocScan at hc
  rcases Nat.eq_zero_or_pos arr.length with hz | hpos
  · rw [hz, allocScanFrom.eq_1] at hc
    exact absurd hc (by simp)
  · refine allocScanFrom_claimed arr last arr.length _ jj ?_ hc
    by_cases hle : (arr.length : Int) ≤ last + 1
    · rw [if_pos hle]
      simpa using hpos
    · rw [if_neg hle]
      omega

theorem bkupAdvanceCode_ne_zero (next g : Nat) (hn : FirstNormalGlobalTransactionId ≤ next) :
    bkupAdvanceCode next g ≠ InvalidGlobalTransactionId := by
  unfold bkupAdvanceCode
  by_cases hp : GlobalTransactionIdPrecedesOrEquals next g = true
  · simp only [hp, eq_self_iff_true, if_true]
    by_cases hz : (g + 1) % gxidMod = InvalidGlobalTransactionId
    · rw [if_pos hz]
      simp [FirstNormalGlobalTransactionId, InvalidGlobalTransactionId]
    · rw [if_neg hz]
      exact hz
  · simp only [Bool.not_eq_true] at hp
    simp only [hp, Bool.false_eq_true, if_false]
    rw [FirstNormalGlobalTransactionId] at hn
    rw [if_neg (by simp only [InvalidGlobalTransactionId]; omega)]
    simp only [InvalidGlobalTransactionId]
    omega

theorem bkupAdvanceCode_not_precedes (next g : Nat)
    (hn : FirstNormalGlobalTransactionId ≤ next) (hg : g < gxidMod) :
    GlobalTransactionIdPrecedesOrEquals (bkupAdvanceCode next g) g = false := by
  unfold bkupAdvanceCode
  by_cases hp : GlobalTransactionIdPrecedesOrEquals next g = true
  · simp only [hp, eq_self_iff_true, if_true]
    by_cases hw : g + 1 = gxidMod
    · have hz : (g + 1) % gxidMod = 0 := by rw [hw, Nat.mod_self]
      rw [hz]
      have hif : (if (0 : Nat) = InvalidGlobalTransactionId then FirstNormalGlobalTransactionId
          else 0) = FirstNormalGlobalTransactionId := by
        simp [InvalidGlobalTransactionId]
      rw [hif]
      have hgval : g = gxidMod - 1 := by omega
      rw [hgval]
      decide
    · have hlt : g + 1 < gxidMod := by omega
      have hm : (g + 1) % gxidMod = g + 1 := Nat.mod_eq_of_lt hlt
      rw [hm, if_neg (by simp only [InvalidGlobalTransactionId]; omega)]
      unfold GlobalTransactionIdPrecedesOrEquals gxidDiff
      have h1 : g + 1 + gxidMod - g = gxidMod + 1 := by omega
      rw [h1]
      have h2 : (gxidMod + 1) % gxidMod = 1 := by
        rw [Nat.add_mod_left]
        exact Nat.mod_eq_of_lt (by norm_num [gxidMod])
      rw [h2]
      decide
  · simp only [Bool.not_eq_true] at hp
    simp only [hp, Bool.false_eq_true, if_false]
    rw [FirstNormalGlobalTransactionId] at hn
    rw [if_neg (by simp only [InvalidGlobalTransactionId]; omega)]
    exact hp

theorem saveControlCond_self (ci n : Nat) : saveControlCond ci n n = false := by
  unfold saveControlCond gxidDiff
  have h1 : n + gxidMod - n = gxidMod := by omega
  rw [h1, Nat.mod_self]
  simp

theorem bkupLoop_single_some (s1 : Transactions) (h g : Nat) (a : BeginArg) (x : Nat)
    (info : TransactionInfo) (hl : lookupInfo s1 h = some info) :
    bkupLoop s1 [h] [(g, a)] x =
      ({ setSlot s1 h { info with gti_gxid := g, gti_global_session_id := a.sessionid } with
         gt_nextXid := bkupAdvanceCode s1.gt_nextXid g },
       bkupAdvanceCode s1.gt_nextXid g) := by
  rw [bkupLoop.eq_1]
  simp only [hl]
  rfl

theorem bkup_second_noop (ci : Nat) (F : Transactions) (g : Nat) (a : BeginArg) (h : Nat)
    (newInfo : TransactionInfo)
    (hses : GTM_GlobalSessionIDToHandle F a.sessionid = some h)
    (hl : lookupInfo F h = some newInfo)
    (hgx : newInfo.gti_gxid = g)
    (hsid2 : newInfo.gti_global_session_id = a.sessionid)
    (hnp : GlobalTransactionIdPrecedesOrEquals F.gt_nextXid g = false)
    (hnz : F.gt_nextXid ≠ InvalidGlobalTransactionId)
    (hsc : saveControlCond ci F.gt_nextXid F.controlXid = false) :
    GTM_BkupBeginTransactionGetGXID ci F g a = ⟨F, some [h], false⟩ := by
  have hb : GTM_BeginTransactionOne F a = some (F, h) := by
    unfold GTM_BeginTransactionOne
    rw [hses]
  have hrec : ({ newInfo with gti_gxid := g, gti_global_session_id := a.sessionid }
      : TransactionInfo) = newInfo := by
    rw [← hgx, ← hsid2]
  have hslotF : setSlot F h newInfo = F := by
    obtain ⟨hlt, hinfoeq, -⟩ := (lookupInfo_some_iff F h newInfo).mp hl
    show { F with gt_transactions_array := F.gt_transactions_array.set h newInfo } = F
    rw [hinfoeq]
    simp only [slotGet]
    rw [list_set_getD_self]
  have hN : bkupAdvanceCode F.gt_nextXid g = F.gt_nextXid := by
    unfold bkupAdvanceCode
    simp only [hnp, Bool.false_eq_true, if_false]
    rw [if_neg hnz]
  unfold GTM_BkupBeginTransactionGetGXID
  rw [bkupMulti_eq_some ci F [(g, a)] F [h] (beginMultiGo_single_some F a F h hb)]
  rw [bkupLoop_single_some F h g a InvalidGlobalTransactionId newInfo hl]
  rw [hrec, hslotF, hN]
  have hpair : ({ F with gt_nextXid := F.gt_nextXid } : Transactions) = F := rfl
  rw [hpair]
  rw [if_neg (by simpa using hsc)]

theorem getD_set_self {α : Type} [Inhabited α] (l : List α) (i : Nat) (v : α)
    (hi : i < l.length) : (l.set i v).getD i default = v := by
  rw [List.getD_eq_getElem?_getD, List.getElem?_set_self (h := hi)]
  rfl

theorem find?_append_right {α : Type} (a : α) (l1 l2 : List α) (q : α → Bool)
    (h1 : ∀ x ∈ l1, q x = false) (h2 : l2.find? q = some a) :
    (l1 ++ l2).find? q = some a := by
  rw [List.find?_append, List.find?_eq_none.mpr (fun x hx => by simp [h1 x hx])]
  exact h2

theorem bkupMulti_single (ci : Nat) (s : Transactions) (g : Nat) (a : BeginArg)
    (s1 : Transactions) (h : Nat) (info : TransactionInfo)
    (hb : GTM_BeginTransactionOne s a = some (s1, h))
    (hl : lookupInfo s1 h = some info) :
    GTM_BkupBeginTransactionGetGXID ci s g a =
      (if saveControlCond ci (bkupAdvanceCode s1.gt_nextXid g) s1.controlXid then
        ⟨{ setSlot s1 h { info with gti_gxid := g, gti_global_session_id := a.sessionid } with
            gt_nextXid := bkupAdvanceCode s1.gt_nextXid g,
            controlXid := bkupAdvanceCode s1.gt_nextXid g }, some [h], true⟩
      else ⟨{ setSlot s1 h { info with gti_gxid := g, gti_global_session_id := a.sessionid } with
            gt_nextXid := bkupAdvanceCode s1.gt_nextXid g }, some [h], false⟩) := by
  unfold GTM_BkupBeginTransactionGetGXID
  rw [bkupMulti_eq_some ci s [(g, a)] s1 [h] (beginMultiGo_single_some s a s1 h hb)]
  rw [bkupLoop_single_some s1 h g a InvalidGlobalTransactionId info hl]
  rfl

theorem bkup_replay_main (ci : Nat) (s : Transactions) (s1 : Transactions) (g : Nat)
    (a : BeginArg) (h : Nat) (info : TransactionInfo) (out : BkupOut)
    (hb : GTM_BeginTransactionOne s a = some (s1, h))
    (hl : lookupInfo s1 h = some info)
    (hsid : a.sessionid ≠ "") (hg : g < gxidMod)
    (hnx1 : FirstNormalGlobalTransactionId ≤ s1.gt_nextXid)
    (hfindq : s1.gt_open_transactions.find?
        (fun x => (slotGet (setSlot s1 h
          { info with gti_gxid := g, gti_global_session_id := a.sessionid })
          x).gti_global_session_id == a.sessionid)
        = some h)
    (hr : GTM_BkupBeginTransactionGetGXID ci s g a = out) :
    GTM_BkupBeginTransactionGetGXID ci out.st g a = ⟨out.st, out.txns, false⟩ := by
  obtain ⟨hcnt, hinfoeq, hinuse⟩ := (lookupInfo_some_iff s1 h info).mp hl
  have hslotself : slotGet (setSlot s1 h
      { info with gti_gxid := g, gti_global_session_id := a.sessionid }) h
      = { info with gti_gxid := g, gti_global_session_id := a.sessionid } :=
    slotGet_setSlot_self s1 h _ hcnt
  have hl2 : lookupInfo (setSlot s1 h
      { info with gti_gxid := g, gti_global_session_id := a.sessionid }) h
      = some { info with gti_gxid := g, gti_global_session_id := a.sessionid } := by
    refine (lookupInfo_some_iff _ _ _).mpr ⟨?_, hslotself.symm, ?_⟩
    · rw [slotCount_setSlot]
      exact hcnt
    · rw [hslotself]
      show info.gti_in_use = true
      rw [hinfoeq]
      exact hinuse
  have hses2 : GTM_GlobalSessionIDToHandle (setSlot s1 h
      { info with gti_gxid := g, gti_global_session_id := a.sessionid }) a.sessionid
      = some h := by
    unfold GTM_GlobalSessionIDToHandle
    rw [if_neg hsid]
    exact hfindq
  rw [bkupMulti_single ci s g a s1 h info hb hl] at hr
  by_cases hsc0 : saveControlCond ci (bkupAdvanceCode s1.gt_nextXid g) s1.controlXid = true
  · rw [if_pos hsc0] at hr
    rw [← hr]
    exact bkup_second_noop ci _ g a h _ hses2 hl2 rfl rfl
      (bkupAdvanceCode_not_precedes s1.gt_nextXid g hnx1 hg)
      (bkupAdvanceCode_ne_zero s1.gt_nextXid g hnx1)
      (saveControlCond_self ci (bkupAdvanceCode s1.gt_nextXid g))
  · have hsc0' : saveControlCond ci (bkupAdvanceCode s1.gt_nextXid g) s1.controlXid = false := by
      revert hsc0
      cases saveControlCond ci (bkupAdvanceCode s1.gt_nextXid g) s1.controlXid <;> simp
    rw [if_neg hsc0] at hr
    rw [← hr]
    exact bkup_second_noop ci _ g a h _ hses2 hl2 rfl rfl
      (bkupAdvanceCode_not_precedes s1.gt_nextXid g hnx1 hg)
      (bkupAdvanceCode_ne_zero s1.gt_nextXid g hnx1)
      hsc0'

/-- C9 (amended): a standby begin-with-GXID mirror call carrying a non-empty
session id is idempotent: replaying the call on the table it produced finds
the same slot again by session id, stores the values the slot already holds,
leaves gt_nextXid where the first call put it and does not save the control
file again, so the table comes back unchanged. -/
theorem C9_nonempty_session_idempotent (ci : Nat) (s : Transactions) (g : Nat) (a : BeginArg)
    (hwf : WF s) (hsid : a.sessionid ≠ "") (hg : g < gxidMod)
    (hnx : FirstNormalGlobalTransactionId ≤ s.gt_nextXid)
    (out : BkupOut) (hr : GTM_BkupBeginTransactionGetGXID ci s g a = out)
    (ht : out.txns ≠ none) :
    GTM_BkupBeginTransactionGetGXID ci out.st g a = ⟨out.st, out.txns, false⟩ := by
  cases hb : GTM_BeginTransactionOne s a with
  | none =>
    have hnone : GTM_BkupBeginTransactionGetGXID ci s g a = ⟨s, none, false⟩ := by
      unfold GTM_BkupBeginTransactionGetGXID
      exact bkupMulti_eq_none ci s [(g, a)] s (beginMultiGo_single_none s a hb)
    rw [hnone] at hr
    rw [← hr] at ht
    simp at ht
  | some p =>
    obtain ⟨s1, h⟩ := p
    have hbKeep := hb
    unfold GTM_BeginTransactionOne at hb
    cases hses : GTM_GlobalSessionIDToHandle s a.sessionid with
    | some h0 =>
      rw [hses] at hb
      injection hb with hb3
      injection hb3 with hbs hbh
      have hses' : s.gt_open_transactions.find?
          (fun x => (slotGet s x).gti_global_session_id == a.sessionid) = some h0 := by
        unfold GTM_GlobalSessionIDToHandle at hses
        rw [if_neg hsid] at hses
        exact hses
      have hmemh : h0 ∈ s.gt_open_transactions := List.mem_of_find?_eq_some hses'
      have hlt : h0 < slotCount s := hwf.2.1 h0 hmemh
      have hu : (slotGet s h0).gti_in_use = true := (hwf.2.2.1 h0 hlt).mpr hmemh
      have hl0 : lookupInfo s1 h = some (slotGet s h0) := by
        rw [← hbs, ← hbh]
        exact (lookupInfo_some_iff s h0 (slotGet s h0)).mpr ⟨hlt, rfl, hu⟩
      have hnx1 : FirstNormalGlobalTransactionId ≤ s1.gt_nextXid := by
        rw [← hbs]
        exact hnx
      have hfindq : s1.gt_open_transactions.find?
          (fun x => (slotGet (setSlot s1 h
            { slotGet s h0 with gti_gxid := g, gti_global_session_id := a.sessionid })
            x).gti_global_session_id == a.sessionid)
          = some h := by
        rw [← hbs, ← hbh]
        refine find?_stable s.gt_open_transactions
          (fun x => (slotGet s x).gti_global_session_id == a.sessionid) _ h0 hses' ?_ ?_
        · show ((slotGet (setSlot s h0
            { slotGet s h0 with gti_gxid := g, gti_global_session_id := a.sessionid })
            h0).gti_global_session_id == a.sessionid) = true
          rw [slotGet_setSlot_self s h0 _ hlt]
          simp
        · intro x hx hxh
          show ((slotGet (setSlot s h0
            { slotGet s h0 with gti_gxid := g, gti_global_session_id := a.sessionid })
            x).gti_global_session_id == a.sessionid)
            = ((slotGet s x).gti_global_session_id == a.sessionid)
          rw [slotGet_setSlot_ne s h0 x _ hxh]
      exact bkup_replay_main ci s s1 g a h (slotGet s h0) out hbKeep hl0 hsid hg hnx1 hfindq hr
    | none =>
      cases halloc : allocScan s.gt_transactions_array s.gt_lastslot with
      | claimed ii =>
        rw [hses, halloc] at hb
        injection hb with hb3
        injection hb3 with hbs1 hbh1
        obtain ⟨hlt2, hfree⟩ := allocScan_claimed s.gt_transactions_array s.gt_lastslot ii halloc
        have hnotmem : ii ∉ s.gt_open_transactions := by
          intro hc
          have hin : (slotGet s ii).gti_in_use = true := (hwf.2.2.1 ii hlt2).mpr hc
          have hfree' : (slotGet s ii).gti_in_use = false := hfree
          rw [hin] at hfree'
          simp at hfree'
        have hnone' : s.gt_open_transactions.find?
            (fun y => (slotGet s y).gti_global_session_id == a.sessionid) = none := by
          unfold GTM_GlobalSessionIDToHandle at hses
          rw [if_neg hsid] at hses
          exact hses
        have hses'' : ∀ x ∈ s.gt_open_transactions,
            ((slotGet s x).gti_global_session_id == a.sessionid) = false := by
          intro x hx
          have hnp := List.find?_eq_none.mp hnone' x hx
          simpa using hnp
        have hlt2' : h < s.gt_transactions_array.length := by
          rw [← hbh1]
          exact hlt2
        have harr1 : s1.gt_transactions_array = s.gt_transactions_array.set h
            (GTM_TransactionInfo_Init (slotGet s h) h a.isolevel a.client_id
              a.connid a.sessionid a.readonly) := by
          rw [← hbs1, ← hbh1]
        have hopen1 : s1.gt_open_transactions = s.gt_open_transactions ++ [h] := by
          rw [← hbs1, ← hbh1]
        have hnext1 : s1.gt_nextXid = s.gt_nextXid := by
          rw [← hbs1]
        have hcnt1 : slotCount s1 = slotCount s := by
          rw [← hbs1]
          simp [slotCount]
        have hsg1 : slotGet s1 h = GTM_TransactionInfo_Init (slotGet s h) h
            a.isolevel a.client_id a.connid a.sessionid a.readonly := by
          show s1.gt_transactions_array.getD h default = GTM_TransactionInfo_Init
            (slotGet s h) h a.isolevel a.client_id a.connid a.sessionid a.readonly
          rw [harr1]
          exact getD_set_self s.gt_transactions_array h _ hlt2'
        have hl0 : lookupInfo s1 h = some (GTM_TransactionInfo_Init (slotGet s h) h
            a.isolevel a.client_id a.connid a.sessionid a.readonly) := by
          refine (lookupInfo_some_iff _ _ _).mpr ⟨?_, hsg1.symm, ?_⟩
          · rw [hcnt1]
            exact hlt2'
          · rw [hsg1]
            rfl
        have hnx1 : FirstNormalGlobalTransactionId ≤ s1.gt_nextXid := by
          rw [hnext1]
          exact hnx
        have hfindq : s1.gt_open_transactions.find?
            (fun x => (slotGet (setSlot s1 h
              { GTM_TransactionInfo_Init (slotGet s h) h a.isolevel a.client_id a.connid a.sessionid a.readonly with gti_gxid := g, gti_global_session_id := a.sessionid })
              x).gti_global_session_id == a.sessionid)
            = some h := by
          rw [hopen1]
          refine find?_append_right h s.gt_open_transactions [h] _ ?_ ?_
          · intro x hx
            dsimp only
            have hxh : x ≠ h := by
              rw [← hbh1]
              intro he
              exact hnotmem (he ▸ hx)
            rw [slotGet_setSlot_ne s1 h x _ hxh]
            have hxs : slotGet s1 x = slotGet s x := by
              show s1.gt_transactions_array.getD x default
                = s.gt_transactions_array.getD x default
              rw [harr1, List.getD_eq_getElem?_getD, List.getD_eq_getElem?_getD,
                  List.getElem?_set_ne (fun e => hxh e.symm)]
            rw [hxs]
            exact hses'' x hx
          · refine List.find?_cons_of_pos _ ?_
            dsimp only
            have hlt1 : h < slotCount s1 := by
              rw [hcnt1]
              exact hlt2'
            rw [slotGet_setSlot_self s1 h _ hlt1]
            simp
        exact bkup_replay_main ci s s1 g a h _ out hbKeep hl0 hsid hg hnx1 hfindq hr
      | capacityError =>
        rw [hses, halloc] at hb
        exact Option.noConfusion hb
      | fellThrough jj =>
        rw [hses, halloc] at hb
        exact Option.noConfusion hb

theorem C9_nonempty_session_idempotent_witness :
    WF (GTM_InitTxnManager 4) ∧ sampleArgX.sessionid ≠ "" ∧ (100 : Nat) < gxidMod ∧
    FirstNormalGlobalTransactionId ≤ (GTM_InitTxnManager 4).gt_nextXid ∧
    (GTM_BkupBeginTransactionGetGXID 8192 (GTM_InitTxnManager 4) 100 sampleArgX).txns ≠ none ∧
    GTM_BkupBeginTransactionGetGXID 8192
        (GTM_BkupBeginTransactionGetGXID 8192 (GTM_InitTxnManager 4) 100 sampleArgX).st
        100 sampleArgX
      = ⟨(GTM_BkupBeginTransactionGetGXID 8192 (GTM_InitTxnManager 4) 100 sampleArgX).st,
         (GTM_BkupBeginTransactionGetGXID 8192 (GTM_InitTxnManager 4) 100 sampleArgX).txns,
         false⟩ :=
  ⟨by decide, by decide, by decide, by decide, by decide,
   C9_nonempty_session_idempotent 8192 (GTM_InitTxnManager 4) 100 sampleArgX (by decide)
     (by decide) (by decide) (by decide) _ rfl (by decide)⟩

/-! ### Preservation of well-formedness and GID uniqueness -/

theorem wf_congr (s s' : Transactions)
    (harr : s'.gt_transactions_array = s.gt_transactions_array)
    (hopen : s'.gt_open_transactions = s.gt_open_transactions)
    (hlast : s'.gt_lastslot = s.gt_lastslot)
    (hwf : WF s) : WF s' := by
  unfold WF slotCount slotGet at hwf ⊢
  rw [harr, hopen, hlast]
  exact hwf

theorem gidUnique_congr (s s' : Transactions)
    (harr : s'.gt_transactions_array = s.gt_transactions_array)
    (hgu : GidUnique s) : GidUnique s' := by
  unfold GidUnique slotCount slotGet at hgu ⊢
  rw [harr]
  exact hgu

theorem wf_setSlot_neutral (s : Transactions) (h : Nat) (v : TransactionInfo)
    (hin : v.gti_in_use = (slotGet s h).gti_in_use) (hwf : WF s) : WF (setSlot s h v) := by
  by_cases hh : h < slotCount s
  · obtain ⟨h1, h2, h3, h4⟩ := hwf
    refine ⟨h1, ?_, ?_, ?_⟩
    · intro x hx
      rw [slotCount_setSlot]
      exact h2 x hx
    · intro x hx
      rw [slotCount_setSlot] at hx
      by_cases hxh : x = h
      · rw [hxh]
        rw [slotGet_setSlot_self s h v hh, hin]
        exact h3 h hh
      · rw [slotGet_setSlot_ne s h x v hxh]
        exact h3 x hx
    · rw [slotCount_setSlot]
      exact h4
  · rw [setSlot_oob s h v (by omega)]
    exact hwf

theorem gidUnique_of_pointwise (s s' : Transactions)
    (hcnt : slotCount s' = slotCount s)
    (hsub : ∀ i, i < slotCount s' → (slotGet s' i).gti_in_use = true →
      (slotGet s i).gti_in_use = true ∧ (slotGet s' i).gti_gid = (slotGet s i).gti_gid)
    (hgu : GidUnique s) : GidUnique s' := by
  intro i hi j hj hne hui huj hgne
  obtain ⟨hiu, hig⟩ := hsub i hi hui
  obtain ⟨hju, hjg⟩ := hsub j hj huj
  rw [hig, hjg]
  rw [hig] at hgne
  rw [hcnt] at hi hj
  exact hgu i hi j hj hne hiu hju hgne

theorem slotGet_setTxnState_gid (s : Transactions) (h x : Nat) (st : TxnState) :
    (slotGet (setTxnState s h st) x).gti_gid = (slotGet s x).gti_gid := by
  by_cases hx : x = h
  · subst hx
    by_cases hl : x < slotCount s
    · rw [setTxnState, slotGet_setSlot_self s x _ hl]
    · rw [setTxnState, setSlot_oob s x _ (by omega)]
  · rw [slotGet_setTxnState_ne s h x st hx]

theorem setTxnState_inv (s : Transactions) (h : Nat) (st : TxnState)
    (hwf : WF s) (hgu : GidUnique s) :
    WF (setTxnState s h st) ∧ GidUnique (setTxnState s h st) := by
  constructor
  · exact wf_setSlot_neutral s h _ rfl hwf
  · refine gidUnique_of_pointwise s _ (setTxnState_count s h st) ?_ hgu
    intro i hi hui
    rw [slotGet_setTxnState_in_use] at hui
    exact ⟨hui, slotGet_setTxnState_gid s h i st⟩

theorem removeOne_inv (s : Transactions) (k : Nat) (hwf : WF s) (hgu : GidUnique s) :
    WF (removeOne s k) ∧ GidUnique (removeOne s k) := by
  obtain ⟨h1, h2, h3, h4⟩ := hwf
  constructor
  · refine ⟨?_, ?_, ?_, ?_⟩
    · rw [removeOne_open]
      exact h1.erase k
    · intro x hx
      rw [removeOne_open] at hx
      rw [removeOne_count]
      exact h2 x (List.mem_of_mem_erase hx)
    · intro x hx
      rw [removeOne_count] at hx
      rw [removeOne_open]
      by_cases hxk : x = k
      · rw [hxk]
        rw [slotGet_removeOne_self s k (by omega)]
        constructor
        · intro hctr
          exact absurd hctr (by simp [GTM_TransactionInfo_Clean])
        · intro hmem
          exact absurd hmem h1.not_mem_erase
      · rw [slotGet_removeOne_ne s k x hxk]
        rw [List.mem_erase_of_ne hxk]
        exact h3 x hx
    · rw [removeOne_count]
      exact h4
  · refine gidUnique_of_pointwise s _ (removeOne_count s k) ?_ hgu
    intro i hi hui
    by_cases hik : i = k
    · rw [hik] at hui hi
      rw [removeOne_count] at hi
      rw [slotGet_removeOne_self s k hi] at hui
      exact absurd hui (by simp [GTM_TransactionInfo_Clean])
    · rw [slotGet_removeOne_ne s k i hik] at hui ⊢
      exact ⟨hui, rfl⟩

theorem claimNew_inv (s sB : Transactions) (a : BeginArg) (ii : Nat)
    (harr : sB.gt_transactions_array = s.gt_transactions_array.set ii
      (GTM_TransactionInfo_Init (slotGet s ii) ii a.isolevel a.client_id
        a.connid a.sessionid a.readonly))
    (hopen : sB.gt_open_transactions = s.gt_open_transactions ++ [ii])
    (hlast : sB.gt_lastslot = (ii : Int))
    (hlt : ii < slotCount s) (hfree : (slotGet s ii).gti_in_use = false)
    (hwf : WF s) (hgu : GidUnique s) : WF sB ∧ GidUnique sB := by
  have hcnt : slotCount sB = slotCount s := by
    simp [slotCount, harr]
  have hget_self : slotGet sB ii = GTM_TransactionInfo_Init (slotGet s ii) ii
      a.isolevel a.client_id a.connid a.sessionid a.readonly := by
    show sB.gt_transactions_array.getD ii default = _
    rw [harr]
    exact getD_set_self s.gt_transactions_array ii _ hlt
  have hget_ne : ∀ x, x ≠ ii → slotGet sB x = slotGet s x := by
    intro x hx
    show sB.gt_transactions_array.getD x default = s.gt_transactions_array.getD x default
    rw [harr, List.getD_eq_getElem?_getD, List.getD_eq_getElem?_getD,
        List.getElem?_set_ne (fun e => hx e.symm)]
  have hnotmem : ii ∉ s.gt_open_transactions := by
    intro hc
    have hin := (hwf.2.2.1 ii hlt).mpr hc
    rw [hin] at hfree
    simp at hfree
  constructor
  · refine ⟨?_, ?_, ?_, ?_⟩
    · rw [hopen]
      simp [List.nodup_append, hwf.1, hnotmem]
    · intro x hx
      rw [hopen] at hx
      rw [hcnt]
      rcases (by simpa using hx : x ∈ s.gt_open_transactions ∨ x = ii) with hmem | hxi
      · exact hwf.2.1 x hmem
      · rw [hxi]
        exact hlt
    · intro x hx
      rw [hcnt] at hx
      rw [hopen]
      by_cases hxi : x = ii
      · rw [hxi, hget_self]
        constructor
        · intro _
          simp
        · intro _
          rfl
      · rw [hget_ne x hxi]
        constructor
        · intro hu
          exact List.mem_append_left _ ((hwf.2.2.1 x hx).mp hu)
        · intro hm
          rcases (by simpa using hm : x ∈ s.gt_open_transactions ∨ x = ii) with hmem | hxi2
          · exact (hwf.2.2.1 x hx).mpr hmem
          · exact absurd hxi2 hxi
    · rw [hlast, hcnt]
      constructor <;> omega
  · intro i hi j hj hne hui huj hgne
    by_cases hii : i = ii
    · rw [hii, hget_self] at hgne
      exact absurd rfl hgne
    · by_cases hjj : j = ii
      · rw [hget_ne i hii] at hgne ⊢
        rw [hjj, hget_self]
        intro he
        exact hgne he
      · rw [hget_ne i hii] at hgne hui ⊢
        rw [hget_ne j hjj] at huj ⊢
        rw [hcnt] at hi hj
        exact hgu i hi j hj hne hui huj hgne

theorem beginOne_inv (s : Transactions) (a : BeginArg) (s1 : Transactions) (h : Nat)
    (hb : GTM_BeginTransactionOne s a = some (s1, h))
    (hwf : WF s) (hgu : GidUnique s) : WF s1 ∧ GidUnique s1 := by
  unfold GTM_BeginTransactionOne at hb
  cases hses : GTM_GlobalSessionIDToHandle s a.sessionid with
  | some h0 =>
    rw [hses] at hb
    injection hb with hb1
    injection hb1 with hbs hbh
    rw [← hbs]
    exact ⟨hwf, hgu⟩
  | none =>
    rw [hses] at hb
    cases halloc : allocScan s.gt_transactions_array s.gt_lastslot with
    | claimed ii =>
      rw [halloc] at hb
      injection hb with hb1
      injection hb1 with hbs hbh
      obtain ⟨hlt2, hfree⟩ := allocScan_claimed s.gt_transactions_array s.gt_lastslot ii halloc
      refine claimNew_inv s s1 a ii ?_ ?_ ?_ hlt2 hfree hwf hgu
      · rw [← hbs]
      · rw [← hbs]
      · rw [← hbs]
    | capacityError =>
      rw [halloc] at hb
      exact Option.noConfusion hb
    | fellThrough jj =>
      rw [halloc] at hb
      exact Option.noConfusion hb

theorem beginMultiGo_inv (args : List BeginArg) : ∀ (s : Transactions),
    WF s → GidUnique s →
    WF (beginMultiGo s args).1 ∧ GidUnique (beginMultiGo s args).1 := by
  induction args with
  | nil =>
    intro s hwf hgu
    exact ⟨hwf, hgu⟩
  | cons a rest ih =>
    intro s hwf hgu
    cases hb : GTM_BeginTransactionOne s a with
    | none =>
      have hstop : beginMultiGo s (a :: rest) = (s, none) := by
        rw [beginMultiGo.eq_2, hb]
      rw [hstop]
      exact ⟨hwf, hgu⟩
    | some p =>
      obtain ⟨s1, h⟩ := p
      obtain ⟨hwf1, hgu1⟩ := beginOne_inv s a s1 h hb hwf hgu
      have heq : (beginMultiGo s (a :: rest)).1 = (beginMultiGo s1 rest).1 := by
        rw [beginMultiGo.eq_2, hb]
        dsimp only
        cases hr : beginMultiGo s1 rest with
        | mk s2 o =>
          cases o <;> rfl
      rw [heq]
      exact ih s1 hwf1 hgu1

theorem bkupLoop_inv (hs : List Nat) : ∀ (args : List (Nat × BeginArg)) (s : Transactions)
    (x : Nat), WF s → GidUnique s →
    WF (bkupLoop s hs args x).1 ∧ GidUnique (bkupLoop s hs args x).1 := by
  induction hs with
  | nil =>
    intro args s x hwf hgu
    cases args <;> exact ⟨hwf, hgu⟩
  | cons h rest ih =>
    intro args s x hwf hgu
    cases args with
    | nil => exact ⟨hwf, hgu⟩
    | cons p rest2 =>
      obtain ⟨g, a⟩ := p
      cases hl : lookupInfo s h with
      | none =>
        have heq : bkupLoop s (h :: rest) ((g, a) :: rest2) x =
            bkupLoop { s with gt_nextXid := bkupAdvanceCode s.gt_nextXid g } rest rest2
              (bkupAdvanceCode s.gt_nextXid g) := by
          rw [bkupLoop.eq_1]
          simp only [hl]
        rw [heq]
        refine ih rest2 _ _ ?_ ?_
        · exact wf_congr s _ rfl rfl rfl hwf
        · exact gidUnique_congr s _ rfl hgu
      | some info =>
        obtain ⟨hlt, hinfoeq, hu⟩ := (lookupInfo_some_iff s h info).mp hl
        have heq : bkupLoop s (h :: rest) ((g, a) :: rest2) x =
            bkupLoop { setSlot s h
                { info with gti_gxid := g, gti_global_session_id := a.sessionid } with
                gt_nextXid := bkupAdvanceCode s.gt_nextXid g } rest rest2
              (bkupAdvanceCode s.gt_nextXid g) := by
          rw [bkupLoop.eq_1]
          simp only [hl]
          rfl
        rw [heq]
        refine ih rest2 _ _ ?_ ?_
        · refine wf_congr (setSlot s h
            { info with gti_gxid := g, gti_global_session_id := a.sessionid })
            _ rfl rfl rfl ?_
          refine wf_setSlot_neutral s h _ ?_ hwf
          show info.gti_in_use = (slotGet s h).gti_in_use
          rw [hinfoeq]
        · refine gidUnique_congr (setSlot s h
            { info with gti_gxid := g, gti_global_session_id := a.sessionid })
            _ rfl ?_
          refine gidUnique_of_pointwise s _ (slotCount_setSlot s h _) ?_ hgu
          intro i hi hui
          by_cases hih : i = h
          · rw [hih] at hui ⊢
            rw [slotGet_setSlot_self s h _ hlt] at hui ⊢
            constructor
            · rw [← hinfoeq]
              exact hui
            · show info.gti_gid = (slotGet s h).gti_gid
              rw [hinfoeq]
          · rw [slotGet_setSlot_ne s h i _ hih] at hui ⊢
            exact ⟨hui, rfl⟩

theorem bkupMulti_inv (ci : Nat) (s : Transactions) (args : List (Nat × BeginArg))
    (hwf : WF s) (hgu : GidUnique s) :
    WF (GTM_BkupBeginTransactionGetGXIDMulti ci s args).st ∧
    GidUnique (GTM_BkupBeginTransactionGetGXIDMulti ci s args).st := by
  cases hbg : beginMultiGo s (args.map Prod.snd) with
  | mk s1 o =>
    have hs1 : WF s1 ∧ GidUnique s1 := by
      have hgo := beginMultiGo_inv (args.map Prod.snd) s hwf hgu
      rw [hbg] at hgo
      exact hgo
    cases o with
    | none =>
      rw [bkupMulti_eq_none ci s args s1 hbg]
      exact hs1
    | some hs2 =>
      rw [bkupMulti_eq_some ci s args s1 hs2 hbg]
      have hr := bkupLoop_inv hs2 args s1 InvalidGlobalTransactionId hs1.1 hs1.2
      split
      · exact ⟨wf_congr _ _ rfl rfl rfl hr.1, gidUnique_congr _ _ rfl hr.2⟩
      · exact hr

theorem commitPhase1_inv (w : List Nat) (txn : List Nat) : ∀ s : Transactions,
    WF s → GidUnique s →
    WF (commitPhase1 w s txn).1 ∧ GidUnique (commitPhase1 w s txn).1 := by
  induction txn with
  | nil =>
    intro s hwf hgu
    exact ⟨hwf, hgu⟩
  | cons h rest ih =>
    intro s hwf hgu
    cases hl : lookupInfo s h with
    | none =>
      rw [commitPhase1_cons_err w s h rest hl]
      exact ih s hwf hgu
    | some info =>
      by_cases hd : delayedCond s w = true
      · rw [commitPhase1_cons_delayed w s h rest info hl hd]
        exact ih s hwf hgu
      · rw [commitPhase1_cons_ok w s h rest info hl (by simpa using hd)]
        obtain ⟨hwf1, hgu1⟩ := setTxnState_inv s h TxnState.commitInProgress hwf hgu
        exact ih _ hwf1 hgu1

theorem rollbackPhase1_cons_err (s : Transactions) (h : Nat) (rest : List Nat)
    (hl : lookupInfo s h = none) :
    rollbackPhase1 s (h :: rest) =
      ((rollbackPhase1 s rest).1, Status.error :: (rollbackPhase1 s rest).2.1,
        (rollbackPhase1 s rest).2.2) := by
  rw [rollbackPhase1.eq_2, hl]

theorem rollbackPhase1_cons_ok (s : Transactions) (h : Nat) (rest : List Nat)
    (info : TransactionInfo) (hl : lookupInfo s h = some info) :
    rollbackPhase1 s (h :: rest) =
      ((rollbackPhase1 (setTxnState s h TxnState.abortInProgress) rest).1,
       Status.ok :: (rollbackPhase1 (setTxnState s h TxnState.abortInProgress) rest).2.1,
       h :: (rollbackPhase1 (setTxnState s h TxnState.abortInProgress) rest).2.2) := by
  rw [rollbackPhase1.eq_2, hl]

theorem rollbackPhase1_inv (txn : List Nat) : ∀ s : Transactions,
    WF s → GidUnique s →
    WF (rollbackPhase1 s txn).1 ∧ GidUnique (rollbackPhase1 s txn).1 := by
  induction txn with
  | nil =>
    intro s hwf hgu
    exact ⟨hwf, hgu⟩
  | cons h rest ih =>
    intro s hwf hgu
    cases hl : lookupInfo s h with
    | none =>
      rw [rollbackPhase1_cons_err s h rest hl]
      exact ih s hwf hgu
    | some info =>
      rw [rollbackPhase1_cons_ok s h rest info hl]
      obtain ⟨hwf1, hgu1⟩ := setTxnState_inv s h TxnState.abortInProgress hwf hgu
      exact ih _ hwf1 hgu1

theorem removeMulti_inv (batch : List (Option Nat)) : ∀ s : Transactions,
    WF s → GidUnique s →
    WF (GTM_RemoveTransInfoMulti s batch) ∧ GidUnique (GTM_RemoveTransInfoMulti s batch) := by
  induction batch with
  | nil =>
    intro s hwf hgu
    exact ⟨hwf, hgu⟩
  | cons oh rest ih =>
    intro s hwf hgu
    cases oh with
    | none =>
      rw [removeMulti_cons_none]
      exact ih s hwf hgu
    | some k =>
      rw [removeMulti_cons_some]
      obtain ⟨hwf1, hgu1⟩ := removeOne_inv s k hwf hgu
      exact ih _ hwf1 hgu1

theorem reapGo_inv (cid : Nat) (bid : Int) (l : List Nat) : ∀ s : Transactions,
    WF s → GidUnique s → WF (reapGo cid bid s l) ∧ GidUnique (reapGo cid bid s l) := by
  induction l with
  | nil =>
    intro s hwf hgu
    exact ⟨hwf, hgu⟩
  | cons h rest ih =>
    intro s hwf hgu
    rw [reapGo_cons]
    by_cases hm : reapMatch (slotGet s h) cid bid = true
    · rw [if_pos hm]
      obtain ⟨hwf1, hgu1⟩ := removeOne_inv s h hwf hgu
      exact ih _ hwf1 hgu1
    · rw [if_neg hm]
      exact ih s hwf hgu

theorem commitMulti_inv (s : Transactions) (txn w : List Nat)
    (hwf : WF s) (hgu : GidUnique s) :
    WF (GTM_CommitTransactionMulti s txn w).1 ∧
    GidUnique (GTM_CommitTransactionMulti s txn w).1 := by
  obtain ⟨hwf1, hgu1⟩ := commitPhase1_inv w txn s hwf hgu
  exact removeMulti_inv ((commitPhase1 w s txn).2.2.map Option.some)
    (commitPhase1 w s txn).1 hwf1 hgu1

theorem rollbackMulti_inv (s : Transactions) (txn : List Nat)
    (hwf : WF s) (hgu : GidUnique s) :
    WF (GTM_RollbackTransactionMulti s txn).1 ∧
    GidUnique (GTM_RollbackTransactionMulti s txn).1 := by
  obtain ⟨hwf1, hgu1⟩ := rollbackPhase1_inv txn s hwf hgu
  exact removeMulti_inv ((rollbackPhase1 s txn).2.2.map Option.some)
    (rollbackPhase1 s txn).1 hwf1 hgu1

theorem prepare_inv (s : Transactions) (txn : Nat) (hwf : WF s) (hgu : GidUnique s) :
    WF (GTM_PrepareTransaction s txn).1 ∧ GidUnique (GTM_PrepareTransaction s txn).1 := by
  cases hl : lookupInfo s txn with
  | none =>
    have he : GTM_PrepareTransaction s txn = (s, Status.error) := by
      unfold GTM_PrepareTransaction
      rw [hl]
    rw [he]
    exact ⟨hwf, hgu⟩
  | some info =>
    have he : GTM_PrepareTransaction s txn = (setTxnState s txn TxnState.prepared, Status.ok) := by
      unfold GTM_PrepareTransaction
      rw [hl]
    rw [he]
    exact setTxnState_inv s txn TxnState.prepared hwf hgu

theorem startPrepared_gid_fresh (s : Transactions) (txn : Nat) (gid ns : String)
    (info : TransactionInfo) (hl : lookupInfo s txn = some info)
    (hnone : GTM_GIDToHandle s gid = none)
    (hwf : WF s) (hgu : GidUnique s) :
    GidUnique (setSlot s txn { info with
      gti_state := TxnState.prepareInProgress
      nodestring := some ns
      gti_gid := some gid }) := by
  obtain ⟨hlt, hinfoeq, hu⟩ := (lookupInfo_some_iff s txn info).mp hl
  have hfresh : ∀ x ∈ s.gt_open_transactions, (slotGet s x).gti_gid ≠ some gid := by
    intro x hx
    have hfn := List.find?_eq_none.mp hnone x hx
    simpa using hfn
  intro i hi j hj hne hui huj hgne
  rw [slotCount_setSlot] at hi hj
  by_cases hit : i = txn
  · have hjt : j ≠ txn := by
      intro e
      exact hne (by rw [hit, e])
    rw [hit, slotGet_setSlot_self s txn _ hlt]
    rw [slotGet_setSlot_ne s txn j _ hjt]
    rw [slotGet_setSlot_ne s txn j _ hjt] at huj
    intro he
    have hjmem : j ∈ s.gt_open_transactions := (hwf.2.2.1 j hj).mp huj
    exact hfresh j hjmem he.symm
  · by_cases hjt : j = txn
    · rw [slotGet_setSlot_ne s txn i _ hit] at hgne hui ⊢
      rw [hjt, slotGet_setSlot_self s txn _ hlt]
      intro he
      have himem : i ∈ s.gt_open_transactions := (hwf.2.2.1 i hi).mp hui
      exact hfresh i himem he
    · rw [slotGet_setSlot_ne s txn i _ hit] at hgne hui ⊢
      rw [slotGet_setSlot_ne s txn j _ hjt] at huj ⊢
      exact hgu i hi j hj hne hui huj hgne

theorem startPrepared_inv (s : Transactions) (txn : Nat) (gid ns : String)
    (hwf : WF s) (hgu : GidUnique s) :
    WF (GTM_StartPreparedTransaction s txn gid ns).1 ∧
    GidUnique (GTM_StartPreparedTransaction s txn gid ns).1 := by
  cases hl : lookupInfo s txn with
  | none =>
    have he : GTM_StartPreparedTransaction s txn gid ns = (s, Status.error) := by
      unfold GTM_StartPreparedTransaction
      rw [hl]
    rw [he]
    exact ⟨hwf, hgu⟩
  | some info =>
    cases hg : GTM_GIDToHandle s gid with
    | some k =>
      have he : GTM_StartPreparedTransaction s txn gid ns = (s, Status.error) := by
        unfold GTM_StartPreparedTransaction
        rw [hl, hg]
      rw [he]
      exact ⟨hwf, hgu⟩
    | none =>
      have he : GTM_StartPreparedTransaction s txn gid ns =
          (setSlot s txn { info with
            gti_state := TxnState.prepareInProgress
            nodestring := some ns
            gti_gid := some gid }, Status.ok) := by
        unfold GTM_StartPreparedTransaction
        rw [hl, hg]
      rw [he]
      obtain ⟨hlt, hinfoeq, hu⟩ := (lookupInfo_some_iff s txn info).mp hl
      constructor
      · refine wf_setSlot_neutral s txn _ ?_ hwf
        show info.gti_in_use = (slotGet s txn).gti_in_use
        rw [hinfoeq]
      · exact startPrepared_gid_fresh s txn gid ns info hl hg hwf hgu

theorem genLoop_inv (hs : List Nat) : ∀ (s : Transactions) (x : Nat),
    WF s → GidUnique s → WF (genLoop s hs x).st ∧ GidUnique (genLoop s hs x).st := by
  induction hs with
  | nil =>
    intro s x hwf hgu
    exact ⟨hwf, hgu⟩
  | cons h rest ih =>
    intro s x hwf hgu
    cases hl : lookupInfo s h with
    | none =>
      rw [genLoop_cons_none s h rest x hl]
      exact ⟨hwf, hgu⟩
    | some info =>
      by_cases hv : GlobalTransactionIdIsValid info.gti_gxid = true
      · rw [genLoop_cons_valid s h rest x info hl hv]
        exact ih s x hwf hgu
      · have hv' : GlobalTransactionIdIsValid info.gti_gxid = false := by simpa using hv
        by_cases hstop : genStopCond s = true
        · rw [genLoop_cons_stop s h rest x info hl hv' hstop]
          exact ⟨hwf, hgu⟩
        · rw [genLoop_cons_assign s h rest x info hl hv' (by simpa using hstop)]
          obtain ⟨hlt, hinfoeq, hu⟩ := (lookupInfo_some_iff s h info).mp hl
          have hwfB : WF { setSlot s h { info with gti_gxid := s.gt_nextXid } with
              gt_nextXid := GlobalTransactionIdAdvance s.gt_nextXid } := by
            refine wf_congr (setSlot s h { info with gti_gxid := s.gt_nextXid })
              _ rfl rfl rfl ?_
            refine wf_setSlot_neutral s h _ ?_ hwf
            show info.gti_in_use = (slotGet s h).gti_in_use
            rw [hinfoeq]
          have hguB : GidUnique { setSlot s h { info with gti_gxid := s.gt_nextXid } with
              gt_nextXid := GlobalTransactionIdAdvance s.gt_nextXid } := by
            refine gidUnique_congr (setSlot s h { info with gti_gxid := s.gt_nextXid })
              _ rfl ?_
            refine gidUnique_of_pointwise s _ (slotCount_setSlot s h _) ?_ hgu
            intro i hi hui
            by_cases hih : i = h
            · rw [hih] at hui ⊢
              rw [slotGet_setSlot_self s h _ hlt] at hui ⊢
              constructor
              · rw [← hinfoeq]
                exact hui
              · show info.gti_gid = (slotGet s h).gti_gid
                rw [hinfoeq]
            · rw [slotGet_setSlot_ne s h i _ hih] at hui ⊢
              exact ⟨hui, rfl⟩
          exact ih _ s.gt_nextXid hwfB hguB

theorem genMulti_inv (ci : Nat) (isStandby : Bool) (s : Transactions) (handles : List Nat)
    (hwf : WF s) (hgu : GidUnique s) :
    WF (GTM_GetGlobalTransactionIdMulti ci isStandby s handles).st ∧
    GidUnique (GTM_GetGlobalTransactionIdMulti ci isStandby s handles).st := by
  have hr := genLoop_inv handles s InvalidGlobalTransactionId hwf hgu
  unfold GTM_GetGlobalTransactionIdMulti
  by_cases h1 : isStandby = true
  · rw [if_pos h1]
    exact ⟨hwf, hgu⟩
  · rw [if_neg h1]
    by_cases h2 : (s.gt_gtm_state == RunState.shuttingDown) = true
    · rw [if_pos h2]
      exact ⟨hwf, hgu⟩
    · rw [if_neg h2]
      dsimp only
      split
      · split
        · exact ⟨wf_congr _ _ rfl rfl rfl hr.1, gidUnique_congr _ _ rfl hr.2⟩
        · exact hr
      · exact hr

theorem inv_step (s : Transactions) (op : Op) (hwf : WF s) (hgu : GidUnique s) :
    WF (step s op) ∧ GidUnique (step s op) := by
  cases op with
  | beginMulti args => exact beginMultiGo_inv args s hwf hgu
  | bkupBeginGXIDMulti ci args => exact bkupMulti_inv ci s args hwf hgu
  | startPreparedTxn h gid ns => exact startPrepared_inv s h gid ns hwf hgu
  | prepareTxn h => exact prepare_inv s h hwf hgu
  | commitMulti txn waited => exact commitMulti_inv s txn waited hwf hgu
  | rollbackMulti txn => exact rollbackMulti_inv s txn hwf hgu
  | reap cid bid => exact reapGo_inv cid bid s.gt_open_transactions s hwf hgu
  | assignGXIDMulti ci st hs => exact genMulti_inv ci st s hs hwf hgu

theorem inv_run (ops : List Op) : ∀ s : Transactions, WF s → GidUnique s →
    WF (run s ops) ∧ GidUnique (run s ops) := by
  induction ops with
  | nil =>
    intro s hwf hgu
    exact ⟨hwf, hgu⟩
  | cons op rest ih =>
    intro s hwf hgu
    obtain ⟨hwf1, hgu1⟩ := inv_step s op hwf hgu
    exact ih (step s op) hwf1 hgu1

theorem inv_init (n : Nat) : WF (GTM_InitTxnManager n) ∧ GidUnique (GTM_InitTxnManager n) := by
  have hcount : slotCount (GTM_InitTxnManager n) = n := by
    simp [slotCount, GTM_InitTxnManager]
  have hz : ∀ x, x < n → slotGet (GTM_InitTxnManager n) x = zeroSlot := by
    intro x hx
    show (List.replicate n zeroSlot).getD x default = zeroSlot
    rw [List.getD_eq_getElem?_getD, List.getElem?_replicate, if_pos hx]
    rfl
  constructor
  · refine ⟨List.nodup_nil, ?_, ?_, ?_⟩
    · intro x hx
      exact absurd hx (List.not_mem_nil x)
    · intro x hx
      rw [hcount] at hx
      rw [hz x hx]
      constructor
      · intro hu
        exact absurd hu (by decide)
      · intro hm
        exact absurd hm (List.not_mem_nil x)
    · rw [hcount]
      constructor
      · show (-1 : Int) ≤ -1
        omega
      · show (-1 : Int) < (n : Int)
        omega
  · intro i hi j hj hne hui huj hgne
    rw [hcount] at hi
    rw [hz i hi] at hgne
    exact absurd rfl hgne

/-- C7: GTM_StartPreparedTransaction returns an error and leaves the table
unchanged whenever the GID is already carried by an open transaction; on a
usable handle with a fresh GID it switches the slot to PREPARE_IN_PROGRESS
and stores the gid and node string in the slot; and consequently, starting
from the initial table, after any sequence of operations of the transaction
API no two distinct in-use slots carry the same GID. -/
theorem C7_start_prepared_gid_unique :
    (∀ (s : Transactions) (h : Nat) (gid ns : String),
        (GTM_GIDToHandle s gid).isSome = true →
        GTM_StartPreparedTransaction s h gid ns = (s, Status.error)) ∧
    (∀ (s : Transactions) (h : Nat) (gid ns : String) (info : TransactionInfo),
        lookupInfo s h = some info → GTM_GIDToHandle s gid = none →
        GTM_StartPreparedTransaction s h gid ns =
          (setSlot s h { info with
            gti_state := TxnState.prepareInProgress
            nodestring := some ns
            gti_gid := some gid }, Status.ok)) ∧
    (∀ (n : Nat) (ops : List Op), GidUnique (run (GTM_InitTxnManager n) ops)) := by
  refine ⟨?_, ?_, ?_⟩
  · intro s h gid ns hdup
    unfold GTM_StartPreparedTransaction
    cases hl : lookupInfo s h with
    | none => rfl
    | some info =>
      cases hg : GTM_GIDToHandle s gid with
      | none =>
        rw [hg] at hdup
        exact absurd hdup (by simp)
      | some k => rfl
  · intro s h gid ns info hl hg
    unfold GTM_StartPreparedTransaction
    rw [hl, hg]
  · intro n ops
    obtain ⟨hwf0, hgu0⟩ := inv_init n
    exact (inv_run ops (GTM_InitTxnManager n) hwf0 hgu0).2

theorem C7_start_prepared_gid_unique_witness :
    ((GTM_GIDToHandle samplePrep "GID-1").isSome = true ∧
      GTM_StartPreparedTransaction samplePrep 0 "GID-1" "n2" = (samplePrep, Status.error)) ∧
    (lookupInfo samplePrep 0 = some (slotGet samplePrep 0) ∧
      GTM_GIDToHandle samplePrep "GID-2" = none ∧
      GTM_StartPreparedTransaction samplePrep 0 "GID-2" "n2" =
        (setSlot samplePrep 0 { slotGet samplePrep 0 with
          gti_state := TxnState.prepareInProgress
          nodestring := some "n2"
          gti_gid := some "GID-2" }, Status.ok)) ∧
    GidUnique (run (GTM_InitTxnManager 4)
      [Op.beginMulti [sampleArgX], Op.startPreparedTxn 0 "G" "N"]) :=
  ⟨⟨by decide, C7_start_prepared_gid_unique.1 samplePrep 0 "GID-1" "n2" (by decide)⟩,
   ⟨by decide, by decide,
    C7_start_prepared_gid_unique.2.1 samplePrep 0 "GID-2" "n2" (slotGet samplePrep 0)
      (by decide) (by decide)⟩,
   C7_start_prepared_gid_unique.2.2 4
     [Op.beginMulti [sampleArgX], Op.startPreparedTxn 0 "G" "N"]⟩
